import Mathlib

/-!
# HDC1080 temperature / humidity driver (grstat/esp32-hdc1080)

A shallow embedding of `dist/hdc1080_0.2.0/hdc1080.c` and `include/hdc1080.h`.

* The three file-scope statics of the driver (`hdc1080_set`,
  `hdc1080_conversion_timer_h`, `awaiting_conversion`) are the fields of `State`.
* Every call that leaves the driver (an I2C command link handed to
  `i2c_master_cmd_begin`, `i2c_master_read_from_device`, the two `esp_timer`
  calls, the user callback) is appended to `State.trace`, in program order.
* What the SDK answers is given by a `Platform`: each answer may depend on the
  whole history of calls and on the arguments, and is otherwise arbitrary.
* C integers are `Nat`/`Int`; an `unsigned char` object is reduced `% 256` where
  it is read, an `unsigned short` `% 65536`.
* `float` values are rationals.  For the two decode expressions this is exact:
  see `decode_fits_float`.
* The `ESP_LOGx` calls have no effect on the driver and are left out.
-/

namespace HDC1080

/-! ## Constants -/

/-- The SDK return code type, a C `int`. -/
abbrev esp_err_t := Int

/-- Value of the SDK constant `ESP_OK` (esp_err.h). -/
def ESP_OK : esp_err_t := 0

/-- Value of the SDK constant `ESP_ERR_INVALID_ARG` (esp_err.h). -/
def ESP_ERR_INVALID_ARG : esp_err_t := 0x102

/-- Value of the SDK constant `ESP_ERR_TIMEOUT` (esp_err.h). -/
def ESP_ERR_TIMEOUT : esp_err_t := 0x107

/-- Value of the SDK constant `I2C_MASTER_WRITE` (driver/i2c.h). -/
def I2C_MASTER_WRITE : Nat := 0

/-- Value of the SDK constant `I2C_MASTER_READ` (driver/i2c.h). -/
def I2C_MASTER_READ : Nat := 1

/-- Value of the SDK constant `I2C_MASTER_LAST_NACK` (driver/i2c.h). -/
def I2C_MASTER_LAST_NACK : Nat := 2

def HDC1080_TEMPERATURE_REG : Nat := 0x00
def HDC1080_HUMIDITY_REG : Nat := 0x01
def HDC1080_CONFIG_REG : Nat := 0x02
def HDC1080_MANUFACTURER_ID_REG : Nat := 0xFE
def HDC1080_DEVICE_ID_REG : Nat := 0xFF
def HDC1080_DEVICE_ID : Nat := 0x1050
def HDC1080_MANUFACTURER_ID : Nat := 0x5449
def HDC1080_I2C_ADDRESS : Nat := 0x40

def HDC1080_ACQUISITION_HUMIDITY_AND_TEMPERATURE : Nat := 0x01
def HDC1080_ACQUISITION_HUMIDITY_OR_TEMPERATURE : Nat := 0x00
def HDC1080_TEMPERATURE_RESOLUTION_11BIT : Nat := 0x01
def HDC1080_TEMPERATURE_RESOLUTION_14BIT : Nat := 0x00
def HDC1080_HUMIDITY_RESOLUTION_8BIT : Nat := 0x02
def HDC1080_HUMIDITY_RESOLUTION_11BIT : Nat := 0x01
def HDC1080_HUMIDITY_RESOLUTION_14BIT : Nat := 0x00
def HDC1080_HEATER_ENABLED : Nat := 0x01
def HDC1080_HEATER_DISABLED : Nat := 0x00
def HDC1080_BATTERY_STATUS_OK : Nat := 0x00
def HDC1080_BATTERY_STATUS_LOW : Nat := 0x01

def HDC1080_ERR_ID : esp_err_t := 0xFF
def HDC1080_CONVERTING : esp_err_t := 0xFE
def HDC1080_CONVERSION_WAIT_PERIOD : Nat := 500000

/-! ## Data model -/

/-- The union `hdc1080_config_t`: one `unsigned char` of storage, seen either as
`config_register` or through the bit-fields. -/
structure hdc1080_config_t where
  config_register : Nat
  deriving DecidableEq, Repr

/-- The bit-field view of `hdc1080_config_t`, fields in declaration order from
the least significant bit (the allocation order of the ESP32 toolchains):
2 bits humidity resolution, then 1 bit each for temperature resolution, battery
status, mode of acquisition, heater, reserved, software reset. -/
def hdc1080_config_t.of_fields (humidity_measurement_resolution
    temperature_measurement_resolution battery_status mode_of_acquisition heater
    reserved_bit software_reset : Nat) : hdc1080_config_t :=
  { config_register :=
      humidity_measurement_resolution % 4
      + 4 * (temperature_measurement_resolution % 2)
      + 8 * (battery_status % 2)
      + 16 * (mode_of_acquisition % 2)
      + 32 * (heater % 2)
      + 64 * (reserved_bit % 2)
      + 128 * (software_reset % 2) }

/-- The struct `hdc1080_sensor_readings_t`; the two `float`s are rationals. -/
structure hdc1080_sensor_readings_t where
  humidity : ℚ
  temperature : ℚ
  deriving DecidableEq

/-- The struct `hdc1080_settings_t`.  `callback` is the identity of the function
the pointer designates. -/
structure hdc1080_settings_t where
  i2c_address : Nat
  i2c_port_number : Nat
  timeout_length : Nat
  callback : Nat
  deriving DecidableEq, Repr

/-- One queued command of an I2C command link (`i2c_master_start`,
`i2c_master_write_byte`, `i2c_master_write`, `i2c_master_read`,
`i2c_master_stop`). -/
inductive i2c_cmd where
  | start
  | write_byte (data : Nat) (ack_en : Bool)
  | write (data : List Nat) (ack_en : Bool)
  | read (data_len : Nat) (ack : Nat)
  | stop
  deriving DecidableEq, Repr

/-- A call that leaves the driver.  `callback fn r` is the call
`hdc1080_set.callback(r)` of the function `fn`. -/
inductive Event where
  | i2c_master_cmd_begin (i2c_num : Nat) (cmdlnk : List i2c_cmd) (ticks_to_wait : Nat)
  | i2c_master_read_from_device (i2c_num : Nat) (device_address : Nat)
      (read_size : Nat) (ticks_to_wait : Nat)
  | esp_timer_create
  | esp_timer_start_once (timer : Nat) (timeout_us : Nat)
  | callback (fn : Nat) (sens_readings : hdc1080_sensor_readings_t)
  deriving DecidableEq

/-- The answers of the SDK.  Each function receives the history of calls made so
far, then the arguments of the call.  A bus call answers its return code and the
bytes it delivered into the read buffer; `esp_timer_create` answers its return
code and the handle it stored, if it stored one. -/
structure Platform where
  i2c_master_cmd_begin : List Event → Nat → List i2c_cmd → Nat → esp_err_t × List Nat
  i2c_master_read_from_device : List Event → Nat → Nat → Nat → Nat → esp_err_t × List Nat
  esp_timer_create : List Event → esp_err_t × Option Nat
  esp_timer_start_once : List Event → Nat → Nat → esp_err_t

/-- The file-scope statics of hdc1080.c, and the calls made so far. -/
structure State where
  hdc1080_set : hdc1080_settings_t
  hdc1080_conversion_timer_h : Nat
  awaiting_conversion : Bool
  trace : List Event
  deriving DecidableEq

/-- The statics as the C initialisers leave them: `{0}`, a null handle, `false`. -/
def State.init : State :=
  { hdc1080_set := { i2c_address := 0, i2c_port_number := 0, timeout_length := 0, callback := 0 }
    hdc1080_conversion_timer_h := 0
    awaiting_conversion := false
    trace := [] }

/-- Element `i` of an `unsigned char` array. -/
def byte_at (buff : List Nat) (i : Nat) : Nat :=
  buff.getD i 0 % 256

/-- The buffer after the bus delivered `data` into its first `len` places: the
places not delivered keep what they held. -/
def store_bytes (buff : List Nat) (len : Nat) (data : List Nat) : List Nat :=
  data.take len ++ buff.drop (data.take len).length

/-! ## hdc1080.c -/

/-- The function `check_hdc1080_error`, lines 205-209 (the log line left out). -/
def check_hdc1080_error (hdc_err : esp_err_t) : esp_err_t :=
  if hdc_err = ESP_OK then ESP_OK else hdc_err

/-- The function `write_hdc100_data`, lines 154-165.  The last argument of
`i2c_master_write` is a `bool`, so `I2C_MASTER_LAST_NACK` arrives as `true`. -/
def write_hdc100_data (P : Platform) (s : State) (i2c_register : Nat)
    (write_buff : List Nat) (write_len : Nat) : esp_err_t × State :=
  let cmdlnk : List i2c_cmd :=
    [ i2c_cmd.start,
      i2c_cmd.write_byte (((s.hdc1080_set.i2c_address <<< 1) ||| I2C_MASTER_WRITE) % 256) true,
      i2c_cmd.write_byte i2c_register true,
      i2c_cmd.write ((write_buff.take write_len).map (fun b => b % 256)) (I2C_MASTER_LAST_NACK != 0),
      i2c_cmd.stop ]
  let err_ck := check_hdc1080_error
    (P.i2c_master_cmd_begin s.trace s.hdc1080_set.i2c_port_number cmdlnk
      s.hdc1080_set.timeout_length).1
  (err_ck,
    { s with trace := s.trace ++
        [Event.i2c_master_cmd_begin s.hdc1080_set.i2c_port_number cmdlnk
          s.hdc1080_set.timeout_length] })

/-- The function `read_hdc100_data`, lines 176-195: a register-select
transaction, then, if that succeeded, the read transaction. -/
def read_hdc100_data (P : Platform) (s : State) (i2c_register : Nat)
    (read_buff : List Nat) (read_len : Nat) : esp_err_t × List Nat × State :=
  let cmdlnk : List i2c_cmd :=
    [ i2c_cmd.start,
      i2c_cmd.write_byte (((s.hdc1080_set.i2c_address <<< 1) ||| I2C_MASTER_WRITE) % 256) true,
      i2c_cmd.write_byte i2c_register true,
      i2c_cmd.stop ]
  let err_ck := check_hdc1080_error
    (P.i2c_master_cmd_begin s.trace s.hdc1080_set.i2c_port_number cmdlnk
      s.hdc1080_set.timeout_length).1
  let s1 : State :=
    { s with trace := s.trace ++
        [Event.i2c_master_cmd_begin s.hdc1080_set.i2c_port_number cmdlnk
          s.hdc1080_set.timeout_length] }
  if err_ck ≠ ESP_OK then (err_ck, read_buff, s1)
  else
    let cmdlnk : List i2c_cmd :=
      [ i2c_cmd.start,
        i2c_cmd.write_byte (((s.hdc1080_set.i2c_address <<< 1) ||| I2C_MASTER_READ) % 256) true,
        i2c_cmd.read read_len I2C_MASTER_LAST_NACK,
        i2c_cmd.stop ]
    let r := P.i2c_master_cmd_begin s1.trace s.hdc1080_set.i2c_port_number cmdlnk
      s.hdc1080_set.timeout_length
    let err_ck := check_hdc1080_error r.1
    (err_ck, store_bytes read_buff read_len r.2,
      { s1 with trace := s1.trace ++
          [Event.i2c_master_cmd_begin s.hdc1080_set.i2c_port_number cmdlnk
            s.hdc1080_set.timeout_length] })

/-- The scaling of line 39 applied to the 16-bit temperature word:
`(((float)(raw)/65536) * 165) - 40`. -/
def temperature_of_raw (raw : Nat) : ℚ :=
  ((((raw : ℚ) / 65536) * 165) - 40)

/-- The scaling of line 40 applied to the 16-bit humidity word:
`((float)(raw)/65536) * 100`. -/
def humidity_of_raw (raw : Nat) : ℚ :=
  (((raw : ℚ) / 65536) * 100)

/-- The temperature expression of line 39:
`((((float)((read_buff[0] << 8) | read_buff[1])/65536) * 165) - 40)`. -/
def decode_temperature (read_buff : List Nat) : ℚ :=
  temperature_of_raw ((byte_at read_buff 0 <<< 8) ||| byte_at read_buff 1)

/-- The humidity expression of line 40:
`(((float)((read_buff[2] << 8) | read_buff[3])/65536) * 100)`. -/
def decode_humidity (read_buff : List Nat) : ℚ :=
  humidity_of_raw ((byte_at read_buff 2 <<< 8) ||| byte_at read_buff 3)

/-- The function `hdc1080_conversion_completed`, lines 31-44, the handler of the
conversion timer.  `read_buff` is what the uninitialised local array holds on
entry.  The callback is a sink: it receives the readings and does not call back
into the driver. -/
def hdc1080_conversion_completed (P : Platform) (read_buff : List Nat) (s : State) : State :=
  let sens_readings : hdc1080_sensor_readings_t := { humidity := 0, temperature := 0 }
  let r := P.i2c_master_read_from_device s.trace s.hdc1080_set.i2c_port_number
    s.hdc1080_set.i2c_address 4 s.hdc1080_set.timeout_length
  let read_buff := store_bytes read_buff 4 r.2
  let s1 : State :=
    { s with trace := s.trace ++
        [Event.i2c_master_read_from_device s.hdc1080_set.i2c_port_number
          s.hdc1080_set.i2c_address 4 s.hdc1080_set.timeout_length] }
  let err_ck := check_hdc1080_error r.1
  let sens_readings : hdc1080_sensor_readings_t :=
    if err_ck = ESP_OK then
      { sens_readings with
        temperature := decode_temperature read_buff
        humidity := decode_humidity read_buff }
    else sens_readings
  let s2 : State := { s1 with awaiting_conversion := false }
  { s2 with trace := s2.trace ++ [Event.callback s2.hdc1080_set.callback sens_readings] }

/-- The function `hdc1080_request_readings`, lines 55-71. -/
def hdc1080_request_readings (P : Platform) (s : State) : esp_err_t × State :=
  if s.awaiting_conversion then (HDC1080_CONVERTING, s)
  else
    let cmdlnk : List i2c_cmd :=
      [ i2c_cmd.start,
        i2c_cmd.write_byte (((s.hdc1080_set.i2c_address <<< 1) ||| I2C_MASTER_WRITE) % 256) true,
        i2c_cmd.write_byte HDC1080_TEMPERATURE_REG true,
        i2c_cmd.stop ]
    let err_ck := check_hdc1080_error
      (P.i2c_master_cmd_begin s.trace s.hdc1080_set.i2c_port_number cmdlnk
        s.hdc1080_set.timeout_length).1
    let s1 : State :=
      { s with trace := s.trace ++
          [Event.i2c_master_cmd_begin s.hdc1080_set.i2c_port_number cmdlnk
            s.hdc1080_set.timeout_length] }
    if err_ck ≠ ESP_OK then (err_ck, s1)
    else
      let s2 : State := { s1 with awaiting_conversion := true }
      let err_ck := P.esp_timer_start_once s2.trace s2.hdc1080_conversion_timer_h
        HDC1080_CONVERSION_WAIT_PERIOD
      (err_ck,
        { s2 with trace := s2.trace ++
            [Event.esp_timer_start_once s2.hdc1080_conversion_timer_h
              HDC1080_CONVERSION_WAIT_PERIOD] })

/-- The value `(unsigned short)((hdc_buff[0] << 8) | hdc_buff[1])` that
`hdc1080_configure` compares three times (lines 93, 101, 110). -/
def buff_word (hdc_buff : List Nat) : Nat :=
  ((byte_at hdc_buff 0 <<< 8) ||| byte_at hdc_buff 1) % 65536

/-- Lines 120-126 of `hdc1080_configure`: the conversion timer is created and
the return code of `esp_timer_create` is the result. -/
def hdc1080_configure_timer (P : Platform) (s : State) : esp_err_t × State :=
  let r := P.esp_timer_create s.trace
  (r.1,
    { s with
      hdc1080_conversion_timer_h := r.2.getD s.hdc1080_conversion_timer_h
      trace := s.trace ++ [Event.esp_timer_create] })

/-- The function `hdc1080_configure`, lines 83-127. -/
def hdc1080_configure (P : Platform) (hdc1080_settings : hdc1080_settings_t)
    (hdc_cfg : hdc1080_config_t) (s : State) : esp_err_t × State :=
  if s.awaiting_conversion then (HDC1080_CONVERTING, s)
  else
    let hdc_buff : List Nat := [0, 0]
    let cfg_s : Nat := ((hdc_cfg.config_register % 256) <<< 8) % 65536
    let s : State := { s with hdc1080_set := hdc1080_settings }
    let r := read_hdc100_data P s HDC1080_MANUFACTURER_ID_REG hdc_buff 2
    let err_ck := check_hdc1080_error r.1
    let hdc_buff := r.2.1
    let s := r.2.2
    if err_ck ≠ ESP_OK then (err_ck, s)
    else if buff_word hdc_buff ≠ HDC1080_MANUFACTURER_ID then (HDC1080_ERR_ID, s)
    else
      let r := read_hdc100_data P s HDC1080_DEVICE_ID_REG hdc_buff 2
      let err_ck := check_hdc1080_error r.1
      let hdc_buff := r.2.1
      let s := r.2.2
      if err_ck ≠ ESP_OK then (err_ck, s)
      else if buff_word hdc_buff ≠ HDC1080_DEVICE_ID then (HDC1080_ERR_ID, s)
      else
        let r := read_hdc100_data P s HDC1080_CONFIG_REG hdc_buff 2
        let err_ck := check_hdc1080_error r.1
        let hdc_buff := r.2.1
        let s := r.2.2
        if err_ck ≠ ESP_OK then (err_ck, s)
        else if buff_word hdc_buff ≠ cfg_s then
          let hdc_buff := [hdc_cfg.config_register % 256, 0]
          let r := write_hdc100_data P s HDC1080_CONFIG_REG hdc_buff 2
          let err_ck := check_hdc1080_error r.1
          let s := r.2
          if err_ck ≠ ESP_OK then (err_ck, s)
          else hdc1080_configure_timer P s
        else hdc1080_configure_timer P s

/-- The function `hdc1080_get_configuration`, lines 136-143.  The second
component of the result is what `*hdc_cfg` holds on return. -/
def hdc1080_get_configuration (P : Platform) (hdc_cfg : hdc1080_config_t) (s : State) :
    esp_err_t × hdc1080_config_t × State :=
  if s.awaiting_conversion then (HDC1080_CONVERTING, hdc_cfg, s)
  else
    let hdc_buff : List Nat := [0, 0]
    let r := read_hdc100_data P s HDC1080_CONFIG_REG hdc_buff 2
    let err_ck := check_hdc1080_error r.1
    let hdc_buff := r.2.1
    let s := r.2.2
    if err_ck ≠ ESP_OK then (err_ck, hdc_cfg, s)
    else (err_ck, { hdc_cfg with config_register := byte_at hdc_buff 0 }, s)

/-! ## Runs, and what is observed of them -/

/-- A call of one of the three public functions of hdc1080.h.  The argument of
`get_configuration` is what `*hdc_cfg` holds on entry. -/
inductive Call where
  | request_readings
  | configure (hdc1080_settings : hdc1080_settings_t) (hdc_cfg : hdc1080_config_t)
  | get_configuration (hdc_cfg : hdc1080_config_t)

/-- The return code and the state after one public call. -/
def Call.exec (P : Platform) : Call → State → esp_err_t × State
  | Call.request_readings, s => hdc1080_request_readings P s
  | Call.configure hdc1080_settings hdc_cfg, s => hdc1080_configure P hdc1080_settings hdc_cfg s
  | Call.get_configuration hdc_cfg, s =>
      ((hdc1080_get_configuration P hdc_cfg s).1, (hdc1080_get_configuration P hdc_cfg s).2.2)

/-- The state after a sequence of public calls, made one after the other. -/
def run_calls (P : Platform) : List Call → State → State
  | [], s => s
  | c :: cs, s => run_calls P cs (c.exec P s).2

/-- The calls that left the driver between two states of one run. -/
def issued (before after : State) : List Event :=
  after.trace.drop before.trace.length

/-- A transaction on the I2C bus. -/
def Event.is_bus_transaction : Event → Bool
  | Event.i2c_master_cmd_begin _ _ _ => true
  | Event.i2c_master_read_from_device _ _ _ _ => true
  | _ => false

/-- A timer is created or started. -/
def Event.is_timer_call : Event → Bool
  | Event.esp_timer_create => true
  | Event.esp_timer_start_once _ _ => true
  | _ => false

/-- The user callback is invoked. -/
def Event.is_callback : Event → Bool
  | Event.callback _ _ => true
  | _ => false

/-- A transaction that only selects register `reg` (start, address with the
write bit, register, stop): the conversion trigger when `reg` is the temperature
register, and the first half of `read_hdc100_data`. -/
def Event.selects_register (reg : Nat) : Event → Bool
  | Event.i2c_master_cmd_begin _
      [i2c_cmd.start, i2c_cmd.write_byte _ _, i2c_cmd.write_byte r _, i2c_cmd.stop] _ => r == reg
  | _ => false

/-- A transaction that writes a payload to register `reg`: the shape
`write_hdc100_data` issues. -/
def Event.writes_register (reg : Nat) : Event → Bool
  | Event.i2c_master_cmd_begin _
      [i2c_cmd.start, i2c_cmd.write_byte _ _, i2c_cmd.write_byte r _, i2c_cmd.write _ _,
        i2c_cmd.stop] _ => r == reg
  | _ => false

/-- The payload of a register write, and `[]` for any other call. -/
def Event.write_payload : Event → List Nat
  | Event.i2c_master_cmd_begin _
      [i2c_cmd.start, i2c_cmd.write_byte _ _, i2c_cmd.write_byte _ _, i2c_cmd.write data _,
        i2c_cmd.stop] _ => data
  | _ => []

/-- The conversion trigger: the register-select transaction on the temperature
register. -/
def Event.is_trigger (e : Event) : Bool :=
  e.selects_register HDC1080_TEMPERATURE_REG

/-- The readings handed to the callback by the calls in a list, oldest first. -/
def delivered : List Event → List hdc1080_sensor_readings_t
  | [] => []
  | Event.callback _ r :: es => r :: delivered es
  | _ :: es => delivered es

/-- The command link of a register-select transaction: start, the device
address with the write bit, the register, stop. -/
def select_cmds (set : hdc1080_settings_t) (reg : Nat) : List i2c_cmd :=
  [ i2c_cmd.start,
    i2c_cmd.write_byte (((set.i2c_address <<< 1) ||| I2C_MASTER_WRITE) % 256) true,
    i2c_cmd.write_byte reg true,
    i2c_cmd.stop ]

/-- The register-select transaction on `reg`, as it shows in the trace. -/
def select_transaction (set : hdc1080_settings_t) (reg : Nat) : Event :=
  Event.i2c_master_cmd_begin set.i2c_port_number (select_cmds set reg) set.timeout_length

/-- The command link of the second half of `read_hdc100_data`: start, the device
address with the read bit, a read of `len` bytes, stop. -/
def read_cmds (set : hdc1080_settings_t) (len : Nat) : List i2c_cmd :=
  [ i2c_cmd.start,
    i2c_cmd.write_byte (((set.i2c_address <<< 1) ||| I2C_MASTER_READ) % 256) true,
    i2c_cmd.read len I2C_MASTER_LAST_NACK,
    i2c_cmd.stop ]

/-- The read transaction of `len` bytes, as it shows in the trace. -/
def read_transaction (set : hdc1080_settings_t) (len : Nat) : Event :=
  Event.i2c_master_cmd_begin set.i2c_port_number (read_cmds set len) set.timeout_length

/-- The transaction `write_hdc100_data` issues to write `payload` to `reg`, as it
shows in the trace. -/
def write_transaction (set : hdc1080_settings_t) (reg : Nat) (payload : List Nat) : Event :=
  Event.i2c_master_cmd_begin set.i2c_port_number
    [ i2c_cmd.start,
      i2c_cmd.write_byte (((set.i2c_address <<< 1) ||| I2C_MASTER_WRITE) % 256) true,
      i2c_cmd.write_byte reg true,
      i2c_cmd.write payload true,
      i2c_cmd.stop ]
    set.timeout_length

/-- The 4-byte read of the completion handler, as it shows in the trace. -/
def completion_read (set : hdc1080_settings_t) : Event :=
  Event.i2c_master_read_from_device set.i2c_port_number set.i2c_address 4 set.timeout_length

/-- What the bus answers to the trigger write of `hdc1080_request_readings`
called in state `s`. -/
def trigger_answer (P : Platform) (s : State) : esp_err_t :=
  (P.i2c_master_cmd_begin s.trace s.hdc1080_set.i2c_port_number
    (select_cmds s.hdc1080_set HDC1080_TEMPERATURE_REG) s.hdc1080_set.timeout_length).1

/-- What `esp_timer_start_once` answers in `hdc1080_request_readings` called in
state `s`, once the trigger write is on the trace. -/
def timer_start_answer (P : Platform) (s : State) : esp_err_t :=
  P.esp_timer_start_once (s.trace ++ [select_transaction s.hdc1080_set HDC1080_TEMPERATURE_REG])
    s.hdc1080_conversion_timer_h HDC1080_CONVERSION_WAIT_PERIOD

/-- What the bus answers to the 4-byte read of the completion handler run in
state `s`: the return code and the bytes delivered. -/
def completion_answer (P : Platform) (s : State) : esp_err_t × List Nat :=
  P.i2c_master_read_from_device s.trace s.hdc1080_set.i2c_port_number
    s.hdc1080_set.i2c_address 4 s.hdc1080_set.timeout_length

/-! ## The words of the specification -/

/-- The inverse of the temperature scaling, as the specification writes it:
`(t + 40) * 65536 / 165`. -/
def raw_of_temperature (t : ℚ) : ℚ :=
  (t + 40) * 65536 / 165

/-- The inverse of the humidity scaling, as the specification writes it:
`h * 65536 / 100`. -/
def raw_of_humidity (h : ℚ) : ℚ :=
  h * 65536 / 100

/-- A value rounded to two decimal places, to the nearest hundredth (a half goes
up). -/
def round_hundredths (q : ℚ) : ℚ :=
  ((⌊q * 100 + 1 / 2⌋ : ℤ) : ℚ) / 100

/-! ## A scripted platform, for running the driver on concrete inputs -/

/-- The platform whose `k`-th answer (counting every call that left the driver,
from 0) to a bus call is `bus[k]`, a timeout past the end of the table; the two
timer calls always answer `timer_create` and `timer_start`. -/
def scripted (bus : List (esp_err_t × List Nat)) (timer_create : esp_err_t × Option Nat)
    (timer_start : esp_err_t) : Platform :=
  { i2c_master_cmd_begin := fun h _ _ _ => bus.getD h.length (ESP_ERR_TIMEOUT, [])
    i2c_master_read_from_device := fun h _ _ _ _ => bus.getD h.length (ESP_ERR_TIMEOUT, [])
    esp_timer_create := fun _ => timer_create
    esp_timer_start_once := fun _ _ _ => timer_start }

/-- The settings of the example application (esp32-hdc1080.c, lines 38-43):
address 0x40, port 0, a timeout of 200 ticks, callback number 1. -/
def app_settings : hdc1080_settings_t :=
  { i2c_address := HDC1080_I2C_ADDRESS, i2c_port_number := 0, timeout_length := 200,
    callback := 1 }

/-- The configuration of the example application (esp32-hdc1080.c, lines 46-51);
the fields the initialiser does not name are zero. -/
def app_config : hdc1080_config_t :=
  hdc1080_config_t.of_fields HDC1080_HUMIDITY_RESOLUTION_14BIT
    HDC1080_TEMPERATURE_RESOLUTION_14BIT 0 HDC1080_ACQUISITION_HUMIDITY_AND_TEMPERATURE
    HDC1080_HEATER_DISABLED 0 0

/-- A chip that answers the example application correctly: the two identity
reads, a configuration register that holds 0, the configuration write, the
trigger, and the completion read of the bytes 61 4D 5C 0F (hexadecimal). The
timer is created with handle 7 and starts. -/
def example_chip : Platform :=
  scripted
    [(0, []), (0, [0x54, 0x49]), (0, []), (0, [0x10, 0x50]), (0, []), (0, [0, 0]), (0, []),
      (0, []), (0, []), (0, []), (0, [0x61, 0x4D, 0x5C, 0x0F])]
    (0, some 7) 0

/-- The state of the example run after `hdc1080_configure`. -/
def example_configured : State :=
  (hdc1080_configure example_chip app_settings app_config State.init).2

/-- The state of the example run after the request that follows. -/
def example_requested : State :=
  (hdc1080_request_readings example_chip example_configured).2

/-- A chip whose manufacturer-ID register holds 0x1234. -/
def foreign_chip : Platform :=
  scripted [(0, []), (0, [0x12, 0x34])] (0, some 7) 0

/-- A chip of the right manufacturer whose device-ID register holds 0x1000. -/
def sibling_chip : Platform :=
  scripted [(0, []), (0, [0x54, 0x49]), (0, []), (0, [0x10, 0x00])] (0, some 7) 0

/-- The chip of the example, its configuration register already holding 0x1000. -/
def configured_chip : Platform :=
  scripted [(0, []), (0, [0x54, 0x49]), (0, []), (0, [0x10, 0x50]), (0, []), (0, [0x10, 0])]
    (0, some 7) 0

/-- The statics once the settings are copied, before the first transaction. -/
def example_entry : State :=
  { State.init with hdc1080_set := app_settings }

/-- The chip of the example, except that the completion read times out after
two bytes. -/
def flaky_chip : Platform :=
  scripted
    [(0, []), (0, [0x54, 0x49]), (0, []), (0, [0x10, 0x50]), (0, []), (0, [0, 0]), (0, []),
      (0, []), (0, []), (0, []), (ESP_ERR_TIMEOUT, [0x61, 0x4D])]
    (0, some 7) 0

/-- The state of the run on `flaky_chip` after configure and request. -/
def flaky_requested : State :=
  (hdc1080_request_readings flaky_chip
    (hdc1080_configure flaky_chip app_settings app_config State.init).2).2

/-- A bus with a glitch: the first transaction times out, the later ones are
acknowledged.  `esp_timer_start_once` refuses the handle it is given with
`ESP_ERR_INVALID_ARG`, its answer to a null handle. -/
def glitch_chip : Platform :=
  scripted [(ESP_ERR_TIMEOUT, []), (0, []), (0, []), (0, [])] (0, some 7) ESP_ERR_INVALID_ARG

/-- The state after `hdc1080_configure` failed on the glitch: the settings are
stored, no timer was created. -/
def glitch_configured : State :=
  (hdc1080_configure glitch_chip app_settings app_config State.init).2

/-- The state after the request that follows the failed configure. -/
def glitch_requested : State :=
  (hdc1080_request_readings glitch_chip glitch_configured).2

/-- The chip of the example, which later returns the configuration it was
given: after `hdc1080_configure` the next register read delivers 10 00. -/
def readback_chip : Platform :=
  scripted
    [(0, []), (0, [0x54, 0x49]), (0, []), (0, [0x10, 0x50]), (0, []), (0, [0, 0]), (0, []),
      (0, []), (0, []), (0, [0x10, 0x00])]
    (0, some 7) 0

/-- The state of the run on `readback_chip` after `hdc1080_configure`. -/
def readback_configured : State :=
  (hdc1080_configure readback_chip app_settings app_config State.init).2

/-! ## Basic facts -/

@[simp] theorem check_hdc1080_error_eq (hdc_err : esp_err_t) :
    check_hdc1080_error hdc_err = hdc_err := by
  unfold check_hdc1080_error
  split
  · next h => exact h.symm
  · rfl

theorem issued_append (s t : State) (es : List Event) (h : t.trace = s.trace ++ es) :
    issued s t = es := by
  unfold issued
  rw [h]
  exact List.drop_left _ _

@[simp] theorem issued_self (s : State) : issued s s = [] := by
  simp [issued]

/-- A request made while idle: the trigger write goes on the bus; if the bus
refuses it the driver stays idle and the bus error is returned, otherwise the
flag is set, the timer is started and the answer of the timer is returned. -/
theorem request_readings_idle (P : Platform) (s : State) (h : s.awaiting_conversion = false) :
    hdc1080_request_readings P s =
      if trigger_answer P s ≠ ESP_OK then
        (trigger_answer P s,
          { s with trace := s.trace ++ [select_transaction s.hdc1080_set HDC1080_TEMPERATURE_REG] })
      else
        (timer_start_answer P s,
          { s with
            awaiting_conversion := true
            trace := s.trace ++
              [select_transaction s.hdc1080_set HDC1080_TEMPERATURE_REG,
                Event.esp_timer_start_once s.hdc1080_conversion_timer_h
                  HDC1080_CONVERSION_WAIT_PERIOD] }) := by
  simp [hdc1080_request_readings, h, trigger_answer, timer_start_answer, select_transaction,
    select_cmds]

theorem request_readings_converting (P : Platform) (s : State)
    (h : s.awaiting_conversion = true) :
    hdc1080_request_readings P s = (HDC1080_CONVERTING, s) := by
  simp [hdc1080_request_readings, h]

theorem configure_converting (P : Platform) (hdc1080_settings : hdc1080_settings_t)
    (hdc_cfg : hdc1080_config_t) (s : State) (h : s.awaiting_conversion = true) :
    hdc1080_configure P hdc1080_settings hdc_cfg s = (HDC1080_CONVERTING, s) := by
  simp [hdc1080_configure, h]

theorem get_configuration_converting (P : Platform) (hdc_cfg : hdc1080_config_t) (s : State)
    (h : s.awaiting_conversion = true) :
    hdc1080_get_configuration P hdc_cfg s = (HDC1080_CONVERTING, hdc_cfg, s) := by
  simp [hdc1080_get_configuration, h]

theorem exec_converting (P : Platform) (c : Call) (s : State)
    (h : s.awaiting_conversion = true) :
    c.exec P s = (HDC1080_CONVERTING, s) := by
  cases c <;>
    simp [Call.exec, request_readings_converting, configure_converting,
      get_configuration_converting, h]

/-! ## C1: every public call is rejected while converting -/

/-- C1. In a state whose busy flag is set, `hdc1080_request_readings`,
`hdc1080_configure` and `hdc1080_get_configuration` each return
`HDC1080_CONVERTING` and leave the whole state as it was: no call leaves the
driver (no bus transaction, no timer created or started), the flag, the stored
settings and the output argument are unchanged.  In particular, when such a
state `s` is the one a request made from an idle state `s0` left behind, the
second request returns `HDC1080_CONVERTING` and the two requests together put
exactly one trigger, and exactly one bus transaction, on the bus. -/
theorem converting_rejects_public_calls (P : Platform) (s : State)
    (h : s.awaiting_conversion = true) :
    hdc1080_request_readings P s = (HDC1080_CONVERTING, s)
    ∧ (∀ hdc1080_settings hdc_cfg,
        hdc1080_configure P hdc1080_settings hdc_cfg s = (HDC1080_CONVERTING, s))
    ∧ (∀ hdc_cfg, hdc1080_get_configuration P hdc_cfg s = (HDC1080_CONVERTING, hdc_cfg, s))
    ∧ (∀ c : Call, issued s (c.exec P s).2 = []
        ∧ (c.exec P s).2.awaiting_conversion = true
        ∧ (c.exec P s).2.hdc1080_set = s.hdc1080_set)
    ∧ (∀ s0 : State, s0.awaiting_conversion = false → (hdc1080_request_readings P s0).2 = s →
        (hdc1080_request_readings P s).1 = HDC1080_CONVERTING
        ∧ List.countP Event.is_trigger (issued s0 (hdc1080_request_readings P s).2) = 1
        ∧ List.countP Event.is_bus_transaction
            (issued s0 (hdc1080_request_readings P s).2) = 1) := by
  refine ⟨request_readings_converting P s h, fun a b => configure_converting P a b s h,
    fun a => get_configuration_converting P a s h, ?_, ?_⟩
  · intro c
    rw [exec_converting P c s h]
    exact ⟨issued_self s, h, rfl⟩
  · intro s0 h0 hs
    rw [request_readings_converting P s h]
    refine ⟨rfl, ?_⟩
    rw [request_readings_idle P s0 h0] at hs
    by_cases ht : trigger_answer P s0 = ESP_OK
    · simp only [ht, ne_eq, not_true_eq_false, if_false] at hs
      have hi : issued s0 s =
          [select_transaction s0.hdc1080_set HDC1080_TEMPERATURE_REG,
            Event.esp_timer_start_once s0.hdc1080_conversion_timer_h
              HDC1080_CONVERSION_WAIT_PERIOD] :=
        issued_append s0 s _ (by rw [← hs])
      simp [hi, select_transaction, select_cmds, Event.is_trigger, Event.selects_register,
        Event.is_bus_transaction, List.countP_cons]
    · simp only [ht, ne_eq, not_false_eq_true, if_true] at hs
      rw [← hs] at h
      simp [h0] at h

/-- C1, on the example run: after the request the flag is set and
`hdc1080_get_configuration` is rejected. -/
theorem converting_rejects_public_calls_witness :
    example_requested.awaiting_conversion = true
    ∧ hdc1080_get_configuration example_chip app_config example_requested
      = (HDC1080_CONVERTING, app_config, example_requested) :=
  ⟨by decide, (converting_rejects_public_calls example_chip example_requested
    (by decide)).2.2.1 app_config⟩

/-! ## The transport -/

theorem byte_word (b0 b1 : Nat) (h1 : b1 < 256) :
    (b0 <<< 8) ||| b1 = 256 * b0 + b1 := by
  have h := Nat.mul_add_lt_is_or (show b1 < 2 ^ 8 by omega) b0
  rw [Nat.shiftLeft_eq, Nat.mul_comm, ← h]

theorem buff_word_pair (b0 b1 : Nat) (h0 : b0 < 256) (h1 : b1 < 256) :
    buff_word [b0, b1] = 256 * b0 + b1 := by
  have e0 : byte_at [b0, b1] 0 = b0 := by simp [byte_at]; omega
  have e1 : byte_at [b0, b1] 1 = b1 := by simp [byte_at]; omega
  unfold buff_word
  rw [e0, e1, byte_word b0 b1 h1]
  omega

/-- A read that returns `ESP_OK` has put its two transactions on the bus, the
register select and then the read, and has changed nothing else. -/
theorem read_hdc100_data_ok (P : Platform) (s s1 : State) (reg len : Nat) (buff out : List Nat)
    (h : read_hdc100_data P s reg buff len = (ESP_OK, out, s1)) :
    s1 = { s with trace := s.trace ++
      [select_transaction s.hdc1080_set reg, read_transaction s.hdc1080_set len] } := by
  unfold read_hdc100_data at h
  simp only [check_hdc1080_error_eq] at h
  split at h
  · next hne =>
    simp only [Prod.mk.injEq] at h
    exact absurd h.1 hne
  · simp only [Prod.mk.injEq] at h
    rw [← h.2.2]
    simp [select_transaction, read_transaction, select_cmds, read_cmds]

/-- The write transport puts one transaction on the bus, the register write. -/
theorem write_hdc100_data_state (P : Platform) (s : State) (reg : Nat) (b0 b1 : Nat) :
    (write_hdc100_data P s reg [b0, b1] 2).2 =
      { s with trace := s.trace ++
        [write_transaction s.hdc1080_set reg [b0 % 256, b1 % 256]] } := by
  simp [write_hdc100_data, write_transaction, I2C_MASTER_LAST_NACK]

/-! ## C2: an identity mismatch stops `hdc1080_configure` -/

/-- C2. A configure call made while idle. (1) When the manufacturer-ID read
succeeds with bytes `b0 b1` whose big-endian word is not 0x5449, the call returns
`HDC1080_ERR_ID` and the only calls that left the driver are the two
transactions of that read: nothing selects the device-ID register or the
configuration register, nothing writes a register, no timer is created.
(2) When the manufacturer word is 0x5449 and the device-ID read succeeds with
bytes `d0 d1` whose word is not 0x1050, the call returns `HDC1080_ERR_ID` and the
only calls that left the driver are the four transactions of the two reads:
nothing selects or writes the configuration register. -/
theorem configure_identity_mismatch (P : Platform) (hdc1080_settings : hdc1080_settings_t)
    (hdc_cfg : hdc1080_config_t) (s : State) (h : s.awaiting_conversion = false) :
    (∀ (b0 b1 : Nat) (s1 : State), b0 < 256 → b1 < 256 →
      read_hdc100_data P { s with hdc1080_set := hdc1080_settings }
        HDC1080_MANUFACTURER_ID_REG [0, 0] 2 = (ESP_OK, [b0, b1], s1) →
      256 * b0 + b1 ≠ 0x5449 →
      (hdc1080_configure P hdc1080_settings hdc_cfg s).1 = HDC1080_ERR_ID
      ∧ issued s (hdc1080_configure P hdc1080_settings hdc_cfg s).2 =
          [select_transaction hdc1080_settings HDC1080_MANUFACTURER_ID_REG,
            read_transaction hdc1080_settings 2]
      ∧ ∀ e ∈ issued s (hdc1080_configure P hdc1080_settings hdc_cfg s).2,
          e.selects_register HDC1080_DEVICE_ID_REG = false
          ∧ e.selects_register HDC1080_CONFIG_REG = false
          ∧ (∀ reg, e.writes_register reg = false)
          ∧ e.is_timer_call = false)
    ∧ (∀ (d0 d1 : Nat) (s1 s2 : State), d0 < 256 → d1 < 256 →
      read_hdc100_data P { s with hdc1080_set := hdc1080_settings }
        HDC1080_MANUFACTURER_ID_REG [0, 0] 2 = (ESP_OK, [0x54, 0x49], s1) →
      read_hdc100_data P s1 HDC1080_DEVICE_ID_REG [0x54, 0x49] 2 = (ESP_OK, [d0, d1], s2) →
      256 * d0 + d1 ≠ 0x1050 →
      (hdc1080_configure P hdc1080_settings hdc_cfg s).1 = HDC1080_ERR_ID
      ∧ issued s (hdc1080_configure P hdc1080_settings hdc_cfg s).2 =
          [select_transaction hdc1080_settings HDC1080_MANUFACTURER_ID_REG,
            read_transaction hdc1080_settings 2,
            select_transaction hdc1080_settings HDC1080_DEVICE_ID_REG,
            read_transaction hdc1080_settings 2]
      ∧ ∀ e ∈ issued s (hdc1080_configure P hdc1080_settings hdc_cfg s).2,
          e.selects_register HDC1080_CONFIG_REG = false
          ∧ (∀ reg, e.writes_register reg = false)
          ∧ e.is_timer_call = false) := by
  constructor
  · intro b0 b1 s1 hb0 hb1 hread hid
    have hs1 := read_hdc100_data_ok P _ s1 _ _ _ _ hread
    have hw : buff_word [b0, b1] ≠ HDC1080_MANUFACTURER_ID := by
      rw [buff_word_pair b0 b1 hb0 hb1]
      exact hid
    have hcfg : hdc1080_configure P hdc1080_settings hdc_cfg s = (HDC1080_ERR_ID, s1) := by
      simp only [h] at hread
      simp [hdc1080_configure, h, hread, hw, ESP_OK]
    rw [hcfg]
    have hi : issued s s1 =
        [select_transaction hdc1080_settings HDC1080_MANUFACTURER_ID_REG,
          read_transaction hdc1080_settings 2] :=
      issued_append s s1 _ (by rw [hs1])
    refine ⟨rfl, hi, ?_⟩
    intro e he
    simp only [hi, List.mem_cons, List.mem_singleton, List.not_mem_nil, or_false] at he
    rcases he with rfl | rfl <;>
      simp [select_transaction, read_transaction, select_cmds, read_cmds, Event.selects_register,
        Event.writes_register, Event.is_timer_call, HDC1080_MANUFACTURER_ID_REG,
        HDC1080_DEVICE_ID_REG, HDC1080_CONFIG_REG]
  · intro d0 d1 s1 s2 hd0 hd1 hread1 hread2 hid
    have hs1 := read_hdc100_data_ok P _ s1 _ _ _ _ hread1
    have hs2 := read_hdc100_data_ok P _ s2 _ _ _ _ hread2
    have hw1 : buff_word [0x54, 0x49] = HDC1080_MANUFACTURER_ID := by decide
    have hw2 : buff_word [d0, d1] ≠ HDC1080_DEVICE_ID := by
      rw [buff_word_pair d0 d1 hd0 hd1]
      exact hid
    have hcfg : hdc1080_configure P hdc1080_settings hdc_cfg s = (HDC1080_ERR_ID, s2) := by
      simp only [h] at hread1
      simp [hdc1080_configure, h, hread1, hread2, hw1, hw2, ESP_OK]
    rw [hcfg]
    have hi : issued s s2 =
        [select_transaction hdc1080_settings HDC1080_MANUFACTURER_ID_REG,
          read_transaction hdc1080_settings 2,
          select_transaction hdc1080_settings HDC1080_DEVICE_ID_REG,
          read_transaction hdc1080_settings 2] :=
      issued_append s s2 _ (by rw [hs2, hs1]; simp)
    refine ⟨rfl, hi, ?_⟩
    intro e he
    simp only [hi, List.mem_cons, List.mem_singleton, List.not_mem_nil, or_false] at he
    rcases he with rfl | rfl | rfl | rfl <;>
      simp [select_transaction, read_transaction, select_cmds, read_cmds, Event.selects_register,
        Event.writes_register, Event.is_timer_call, HDC1080_MANUFACTURER_ID_REG,
        HDC1080_DEVICE_ID_REG, HDC1080_CONFIG_REG]

/-- C2, on two runs: a chip of another manufacturer, and a chip of the right
manufacturer with another device ID. -/
theorem configure_identity_mismatch_witness :
    State.init.awaiting_conversion = false
    ∧ (hdc1080_configure foreign_chip app_settings app_config State.init).1 = HDC1080_ERR_ID
    ∧ (hdc1080_configure sibling_chip app_settings app_config State.init).1 = HDC1080_ERR_ID :=
  ⟨by decide,
    ((configure_identity_mismatch foreign_chip app_settings app_config State.init (by decide)).1
      0x12 0x34
      (read_hdc100_data foreign_chip example_entry HDC1080_MANUFACTURER_ID_REG [0, 0] 2).2.2
      (by decide) (by decide) (by decide) (by decide)).1,
    ((configure_identity_mismatch sibling_chip app_settings app_config State.init (by decide)).2
      0x10 0x00
      (read_hdc100_data sibling_chip example_entry HDC1080_MANUFACTURER_ID_REG [0, 0] 2).2.2
      (read_hdc100_data sibling_chip
        (read_hdc100_data sibling_chip example_entry HDC1080_MANUFACTURER_ID_REG [0, 0] 2).2.2
        HDC1080_DEVICE_ID_REG [0x54, 0x49] 2).2.2
      (by decide) (by decide) (by decide) (by decide) (by decide)).1⟩

/-! ## C3, C4: the configuration register is written only when it differs -/

/-- What `hdc1080_configure` does once both identity checks have passed and the
configuration register has been read as `k0 k1`. -/
theorem configure_after_reads (P : Platform) (hdc1080_settings : hdc1080_settings_t)
    (hdc_cfg : hdc1080_config_t) (s s1 s2 s3 : State) (k0 k1 : Nat)
    (h : s.awaiting_conversion = false)
    (h1 : read_hdc100_data P { s with hdc1080_set := hdc1080_settings }
      HDC1080_MANUFACTURER_ID_REG [0, 0] 2 = (ESP_OK, [0x54, 0x49], s1))
    (h2 : read_hdc100_data P s1 HDC1080_DEVICE_ID_REG [0x54, 0x49] 2 = (ESP_OK, [0x10, 0x50], s2))
    (h3 : read_hdc100_data P s2 HDC1080_CONFIG_REG [0x10, 0x50] 2 = (ESP_OK, [k0, k1], s3)) :
    hdc1080_configure P hdc1080_settings hdc_cfg s =
      (if buff_word [k0, k1] ≠ ((hdc_cfg.config_register % 256) <<< 8) % 65536 then
        if (write_hdc100_data P s3 HDC1080_CONFIG_REG [hdc_cfg.config_register % 256, 0] 2).1
            ≠ ESP_OK then
          write_hdc100_data P s3 HDC1080_CONFIG_REG [hdc_cfg.config_register % 256, 0] 2
        else
          hdc1080_configure_timer P
            (write_hdc100_data P s3 HDC1080_CONFIG_REG [hdc_cfg.config_register % 256, 0] 2).2
      else hdc1080_configure_timer P s3)
    ∧ s3.trace = s.trace ++
        [select_transaction hdc1080_settings HDC1080_MANUFACTURER_ID_REG,
          read_transaction hdc1080_settings 2,
          select_transaction hdc1080_settings HDC1080_DEVICE_ID_REG,
          read_transaction hdc1080_settings 2,
          select_transaction hdc1080_settings HDC1080_CONFIG_REG,
          read_transaction hdc1080_settings 2]
    ∧ s3.hdc1080_set = hdc1080_settings := by
  have hs1 := read_hdc100_data_ok P _ s1 _ _ _ _ h1
  have hs2 := read_hdc100_data_ok P _ s2 _ _ _ _ h2
  have hs3 := read_hdc100_data_ok P _ s3 _ _ _ _ h3
  have hw1 : buff_word [0x54, 0x49] = HDC1080_MANUFACTURER_ID := by decide
  have hw2 : buff_word [0x10, 0x50] = HDC1080_DEVICE_ID := by decide
  refine ⟨?_, by rw [hs3, hs2, hs1]; simp, by rw [hs3, hs2, hs1]⟩
  simp only [h] at h1
  simp only [hdc1080_configure, h, h1, h2, h3, hw1, hw2, check_hdc1080_error_eq]
  simp

/-- C3. A configure call made while idle in which both identity checks pass and
the configuration register is read as the requested byte followed by 0x00: no
write transaction leaves the driver, to the configuration register or to any
other; what leaves it is the three register reads and the creation of the
timer, whose return code is the result. -/
theorem configure_same_config_no_write (P : Platform) (hdc1080_settings : hdc1080_settings_t)
    (hdc_cfg : hdc1080_config_t) (s s1 s2 s3 : State)
    (h : s.awaiting_conversion = false)
    (h1 : read_hdc100_data P { s with hdc1080_set := hdc1080_settings }
      HDC1080_MANUFACTURER_ID_REG [0, 0] 2 = (ESP_OK, [0x54, 0x49], s1))
    (h2 : read_hdc100_data P s1 HDC1080_DEVICE_ID_REG [0x54, 0x49] 2 = (ESP_OK, [0x10, 0x50], s2))
    (h3 : read_hdc100_data P s2 HDC1080_CONFIG_REG [0x10, 0x50] 2 =
      (ESP_OK, [hdc_cfg.config_register, 0x00], s3)) :
    List.countP (Event.writes_register HDC1080_CONFIG_REG)
        (issued s (hdc1080_configure P hdc1080_settings hdc_cfg s).2) = 0
    ∧ (∀ reg, List.countP (Event.writes_register reg)
        (issued s (hdc1080_configure P hdc1080_settings hdc_cfg s).2) = 0)
    ∧ issued s (hdc1080_configure P hdc1080_settings hdc_cfg s).2 =
        [select_transaction hdc1080_settings HDC1080_MANUFACTURER_ID_REG,
          read_transaction hdc1080_settings 2,
          select_transaction hdc1080_settings HDC1080_DEVICE_ID_REG,
          read_transaction hdc1080_settings 2,
          select_transaction hdc1080_settings HDC1080_CONFIG_REG,
          read_transaction hdc1080_settings 2,
          Event.esp_timer_create]
    ∧ (hdc1080_configure P hdc1080_settings hdc_cfg s).1 = (P.esp_timer_create s3.trace).1 := by
  obtain ⟨hcfg, hs3, -⟩ :=
    configure_after_reads P hdc1080_settings hdc_cfg s s1 s2 s3 _ _ h h1 h2 h3
  have hw : buff_word [hdc_cfg.config_register, 0x00]
      = ((hdc_cfg.config_register % 256) <<< 8) % 65536 := by
    simp [buff_word, byte_at]
  rw [hcfg, if_neg (not_not.mpr hw)]
  have hi2 : issued s (hdc1080_configure_timer P s3).2 =
      [select_transaction hdc1080_settings HDC1080_MANUFACTURER_ID_REG,
        read_transaction hdc1080_settings 2,
        select_transaction hdc1080_settings HDC1080_DEVICE_ID_REG,
        read_transaction hdc1080_settings 2,
        select_transaction hdc1080_settings HDC1080_CONFIG_REG,
        read_transaction hdc1080_settings 2,
        Event.esp_timer_create] :=
    issued_append s _ _ (by simp [hdc1080_configure_timer, hs3])
  rw [hi2]
  refine ⟨?_, ?_, rfl, rfl⟩
  · simp [select_transaction, read_transaction, select_cmds, read_cmds, Event.writes_register,
      List.countP_cons]
  · intro reg
    simp [select_transaction, read_transaction, select_cmds, read_cmds, Event.writes_register,
      List.countP_cons]

/-- C3, on a run: the example application configures a chip whose configuration
register already holds the requested byte. -/
theorem configure_same_config_no_write_witness :
    State.init.awaiting_conversion = false
    ∧ List.countP (Event.writes_register HDC1080_CONFIG_REG)
        (issued State.init
          (hdc1080_configure configured_chip app_settings app_config State.init).2) = 0 :=
  ⟨by decide,
    (configure_same_config_no_write configured_chip app_settings app_config State.init
      (read_hdc100_data configured_chip example_entry HDC1080_MANUFACTURER_ID_REG [0, 0] 2).2.2
      (read_hdc100_data configured_chip
        (read_hdc100_data configured_chip example_entry HDC1080_MANUFACTURER_ID_REG [0, 0] 2).2.2
        HDC1080_DEVICE_ID_REG [0x54, 0x49] 2).2.2
      (read_hdc100_data configured_chip
        (read_hdc100_data configured_chip
          (read_hdc100_data configured_chip example_entry HDC1080_MANUFACTURER_ID_REG [0, 0]
            2).2.2
          HDC1080_DEVICE_ID_REG [0x54, 0x49] 2).2.2
        HDC1080_CONFIG_REG [0x10, 0x50] 2).2.2
      (by decide) (by decide) (by decide) (by decide)).1⟩

/-- C4. A configure call made while idle in which both identity checks pass, the
configuration register is read as bytes `k0 k1` whose word differs from the
requested byte followed by 0x00, and the write and the creation of the timer
succeed: the call returns `ESP_OK`, and exactly one write transaction leaves the
driver; it goes to the configuration register (0x02) and its payload is the
requested byte followed by 0x00.  The configuration of the example application
(both resolutions 14 bit, humidity and temperature acquired together, heater
off) is the byte 0x10. -/
theorem configure_changed_config_one_write (P : Platform)
    (hdc1080_settings : hdc1080_settings_t) (hdc_cfg : hdc1080_config_t) (s s1 s2 s3 : State)
    (k0 k1 : Nat)
    (h : s.awaiting_conversion = false)
    (hc : hdc_cfg.config_register < 256) (hk0 : k0 < 256) (hk1 : k1 < 256)
    (h1 : read_hdc100_data P { s with hdc1080_set := hdc1080_settings }
      HDC1080_MANUFACTURER_ID_REG [0, 0] 2 = (ESP_OK, [0x54, 0x49], s1))
    (h2 : read_hdc100_data P s1 HDC1080_DEVICE_ID_REG [0x54, 0x49] 2 = (ESP_OK, [0x10, 0x50], s2))
    (h3 : read_hdc100_data P s2 HDC1080_CONFIG_REG [0x10, 0x50] 2 = (ESP_OK, [k0, k1], s3))
    (hne : 256 * k0 + k1 ≠ 256 * hdc_cfg.config_register + 0x00)
    (hwr : (write_hdc100_data P s3 HDC1080_CONFIG_REG [hdc_cfg.config_register, 0x00] 2).1
      = ESP_OK)
    (htm : (hdc1080_configure_timer P
      (write_hdc100_data P s3 HDC1080_CONFIG_REG [hdc_cfg.config_register, 0x00] 2).2).1
      = ESP_OK) :
    (hdc1080_configure P hdc1080_settings hdc_cfg s).1 = ESP_OK
    ∧ List.filter (fun e => (List.range 256).any (fun reg => e.writes_register reg))
        (issued s (hdc1080_configure P hdc1080_settings hdc_cfg s).2) =
        [write_transaction hdc1080_settings HDC1080_CONFIG_REG [hdc_cfg.config_register, 0x00]]
    ∧ List.countP (Event.writes_register HDC1080_CONFIG_REG)
        (issued s (hdc1080_configure P hdc1080_settings hdc_cfg s).2) = 1
    ∧ List.map Event.write_payload
        (List.filter (Event.writes_register HDC1080_CONFIG_REG)
          (issued s (hdc1080_configure P hdc1080_settings hdc_cfg s).2)) =
        [[hdc_cfg.config_register, 0x00]]
    ∧ issued s (hdc1080_configure P hdc1080_settings hdc_cfg s).2 =
        [select_transaction hdc1080_settings HDC1080_MANUFACTURER_ID_REG,
          read_transaction hdc1080_settings 2,
          select_transaction hdc1080_settings HDC1080_DEVICE_ID_REG,
          read_transaction hdc1080_settings 2,
          select_transaction hdc1080_settings HDC1080_CONFIG_REG,
          read_transaction hdc1080_settings 2,
          write_transaction hdc1080_settings HDC1080_CONFIG_REG [hdc_cfg.config_register, 0x00],
          Event.esp_timer_create]
    ∧ app_config.config_register = 0x10 := by
  obtain ⟨hcfg, hs3, hset⟩ :=
    configure_after_reads P hdc1080_settings hdc_cfg s s1 s2 s3 _ _ h h1 h2 h3
  have hcm : hdc_cfg.config_register % 256 = hdc_cfg.config_register := Nat.mod_eq_of_lt hc
  rw [hcm] at hcfg
  have hw : buff_word [k0, k1] ≠ (hdc_cfg.config_register <<< 8) % 65536 := by
    rw [buff_word_pair k0 k1 hk0 hk1, Nat.shiftLeft_eq]
    omega
  rw [hcfg, if_pos hw, if_neg (not_not.mpr hwr)]
  have hi2 : issued s (hdc1080_configure_timer P
      (write_hdc100_data P s3 HDC1080_CONFIG_REG [hdc_cfg.config_register, 0x00] 2).2).2 =
      [select_transaction hdc1080_settings HDC1080_MANUFACTURER_ID_REG,
        read_transaction hdc1080_settings 2,
        select_transaction hdc1080_settings HDC1080_DEVICE_ID_REG,
        read_transaction hdc1080_settings 2,
        select_transaction hdc1080_settings HDC1080_CONFIG_REG,
        read_transaction hdc1080_settings 2,
        write_transaction hdc1080_settings HDC1080_CONFIG_REG [hdc_cfg.config_register, 0x00],
        Event.esp_timer_create] :=
    issued_append s _ _ (by
      rw [write_hdc100_data_state]
      simp [hdc1080_configure_timer, hs3, hset, hcm])
  rw [hi2]
  refine ⟨htm, ?_, ?_, ?_, rfl, by decide⟩
  · simp [select_transaction, read_transaction, write_transaction, select_cmds, read_cmds,
      Event.writes_register, List.filter_cons, HDC1080_CONFIG_REG]
  · simp [select_transaction, read_transaction, write_transaction, select_cmds, read_cmds,
      Event.writes_register, List.countP_cons]
  · simp [select_transaction, read_transaction, write_transaction, select_cmds, read_cmds,
      Event.writes_register, Event.write_payload, List.filter_cons]

/-- C4, on the run the claim names: manufacturer ID 0x5449, device ID 0x1050,
configuration register 00 00, the configuration of the example application. -/
theorem configure_changed_config_one_write_witness :
    State.init.awaiting_conversion = false
    ∧ app_config.config_register = 0x10
    ∧ (hdc1080_configure example_chip app_settings app_config State.init).1 = ESP_OK
    ∧ List.map Event.write_payload
        (List.filter (Event.writes_register HDC1080_CONFIG_REG)
          (issued State.init
            (hdc1080_configure example_chip app_settings app_config State.init).2)) =
        [[0x10, 0x00]] :=
  have key := configure_changed_config_one_write example_chip app_settings app_config State.init
    (read_hdc100_data example_chip example_entry HDC1080_MANUFACTURER_ID_REG [0, 0] 2).2.2
    (read_hdc100_data example_chip
      (read_hdc100_data example_chip example_entry HDC1080_MANUFACTURER_ID_REG [0, 0] 2).2.2
      HDC1080_DEVICE_ID_REG [0x54, 0x49] 2).2.2
    (read_hdc100_data example_chip
      (read_hdc100_data example_chip
        (read_hdc100_data example_chip example_entry HDC1080_MANUFACTURER_ID_REG [0, 0] 2).2.2
        HDC1080_DEVICE_ID_REG [0x54, 0x49] 2).2.2
      HDC1080_CONFIG_REG [0x10, 0x50] 2).2.2
    0x00 0x00
    (by decide) (by decide) (by decide) (by decide) (by decide) (by decide) (by decide)
    (by decide) (by decide) (by decide)
  ⟨by decide, by decide, key.1, key.2.2.2.1⟩

/-! ## C5: the busy flag -/

theorem read_hdc100_data_frame (P : Platform) (s : State) (reg len : Nat) (buff : List Nat) :
    (read_hdc100_data P s reg buff len).2.2.awaiting_conversion = s.awaiting_conversion := by
  unfold read_hdc100_data
  simp only []
  split <;> rfl

theorem configure_timer_frame (P : Platform) (s : State) :
    (hdc1080_configure_timer P s).2.awaiting_conversion = s.awaiting_conversion := rfl

theorem write_hdc100_data_frame (P : Platform) (s : State) (reg len : Nat) (buff : List Nat) :
    (write_hdc100_data P s reg buff len).2.awaiting_conversion = s.awaiting_conversion := rfl

/-- `hdc1080_configure` never writes the busy flag. -/
theorem configure_frame (P : Platform) (hdc1080_settings : hdc1080_settings_t)
    (hdc_cfg : hdc1080_config_t) (s : State) :
    (hdc1080_configure P hdc1080_settings hdc_cfg s).2.awaiting_conversion
      = s.awaiting_conversion := by
  unfold hdc1080_configure
  simp only []
  repeat' split
  all_goals
    simp only [read_hdc100_data_frame, configure_timer_frame, write_hdc100_data_frame]

/-- `hdc1080_get_configuration` never writes the busy flag. -/
theorem get_configuration_frame (P : Platform) (hdc_cfg : hdc1080_config_t) (s : State) :
    (hdc1080_get_configuration P hdc_cfg s).2.2.awaiting_conversion
      = s.awaiting_conversion := by
  unfold hdc1080_get_configuration
  simp only []
  repeat' split
  all_goals simp only [read_hdc100_data_frame]

/-- The completion handler clears the busy flag, whatever the bus answers. -/
theorem conversion_completed_idle (P : Platform) (read_buff : List Nat) (s : State) :
    (hdc1080_conversion_completed P read_buff s).awaiting_conversion = false := rfl

theorem run_calls_converting (P : Platform) (cs : List Call) (s : State)
    (h : s.awaiting_conversion = true) : run_calls P cs s = s := by
  induction cs with
  | nil => rfl
  | cons c cs ih => simp only [run_calls, exec_converting P c s h, ih]

/-- C5. A request made while idle that returns `ESP_OK` leaves the busy flag
set; any sequence of further public calls leaves the state, the flag with it, as
it was; the completion handler run afterwards clears the flag, whatever its bus
read answers.  The flag is set only by a request whose trigger write the bus
accepted (a public call from an idle state that ends with the flag set is
`hdc1080_request_readings` with the trigger answered `ESP_OK`), and no public
call clears it: only the completion handler does. -/
theorem busy_flag_cycle (P : Platform) (s : State) (h : s.awaiting_conversion = false)
    (hok : (hdc1080_request_readings P s).1 = ESP_OK) :
    (hdc1080_request_readings P s).2.awaiting_conversion = true
    ∧ (∀ cs : List Call,
        run_calls P cs (hdc1080_request_readings P s).2 = (hdc1080_request_readings P s).2
        ∧ (run_calls P cs (hdc1080_request_readings P s).2).awaiting_conversion = true)
    ∧ (∀ (cs : List Call) (read_buff : List Nat),
        (hdc1080_conversion_completed P read_buff
          (run_calls P cs (hdc1080_request_readings P s).2)).awaiting_conversion = false)
    ∧ (∀ (c : Call) (t : State), t.awaiting_conversion = false →
        (c.exec P t).2.awaiting_conversion = true →
        c = Call.request_readings ∧ trigger_answer P t = ESP_OK)
    ∧ (∀ (c : Call) (t : State), t.awaiting_conversion = true →
        (c.exec P t).2.awaiting_conversion = true)
    ∧ (∀ (read_buff : List Nat) (t : State),
        (hdc1080_conversion_completed P read_buff t).awaiting_conversion = false) := by
  have hset : (hdc1080_request_readings P s).2.awaiting_conversion = true := by
    rw [request_readings_idle P s h] at hok ⊢
    by_cases ht : trigger_answer P s = ESP_OK
    · simp [ht]
    · simp [ht] at hok
  refine ⟨hset, ?_, ?_, ?_, ?_, fun b t => conversion_completed_idle P b t⟩
  · intro cs
    rw [run_calls_converting P cs _ hset]
    exact ⟨rfl, hset⟩
  · intro cs read_buff
    exact conversion_completed_idle P read_buff _
  · intro c t ht hc
    cases c with
    | request_readings =>
      refine ⟨rfl, ?_⟩
      simp only [Call.exec] at hc
      rw [request_readings_idle P t ht] at hc
      by_contra hne
      simp [hne, ht] at hc
    | configure a b =>
      simp only [Call.exec, configure_frame, ht] at hc
      exact absurd hc (by decide)
    | get_configuration a =>
      simp only [Call.exec, get_configuration_frame, ht] at hc
      exact absurd hc (by decide)
  · intro c t ht
    rw [exec_converting P c t ht]
    exact ht

/-- C5, on the example run: the request returns `ESP_OK`, the flag is set, and
the completion handler clears it. -/
theorem busy_flag_cycle_witness :
    example_configured.awaiting_conversion = false
    ∧ (hdc1080_request_readings example_chip example_configured).1 = ESP_OK
    ∧ (hdc1080_request_readings example_chip example_configured).2.awaiting_conversion = true
    ∧ (hdc1080_conversion_completed example_chip [0, 0, 0, 0]
        (run_calls example_chip [Call.get_configuration app_config, Call.request_readings]
          (hdc1080_request_readings example_chip
            example_configured).2)).awaiting_conversion = false :=
  have key := busy_flag_cycle example_chip example_configured (by decide) (by decide)
  ⟨by decide, by decide, key.1,
    key.2.2.1 [Call.get_configuration app_config, Call.request_readings] [0, 0, 0, 0]⟩

/-! ## C6, C7: what the completion handler hands to the callback -/

/-- The completion handler puts two calls on the trace: the 4-byte read, then
the callback. -/
theorem conversion_completed_trace (P : Platform) (read_buff : List Nat) (s : State) :
    (hdc1080_conversion_completed P read_buff s).trace =
      s.trace ++
        [completion_read s.hdc1080_set,
          Event.callback s.hdc1080_set.callback
            (if (completion_answer P s).1 = ESP_OK then
              { humidity := decode_humidity (store_bytes read_buff 4 (completion_answer P s).2)
                temperature :=
                  decode_temperature (store_bytes read_buff 4 (completion_answer P s).2) }
            else { humidity := 0, temperature := 0 })] := by
  simp [hdc1080_conversion_completed, completion_read, completion_answer]

/-- C6. When the 4-byte read of the completion handler does not return
`ESP_OK`, whatever the error, whatever the local buffer held and whatever bytes
the failed read delivered, the callback is invoked exactly once, with
temperature 0 and humidity 0, and the busy flag is clear afterwards. -/
theorem completion_read_failure (P : Platform) (read_buff : List Nat) (s : State)
    (hfail : (completion_answer P s).1 ≠ ESP_OK) :
    issued s (hdc1080_conversion_completed P read_buff s) =
      [completion_read s.hdc1080_set,
        Event.callback s.hdc1080_set.callback { humidity := 0, temperature := 0 }]
    ∧ List.countP Event.is_callback
        (issued s (hdc1080_conversion_completed P read_buff s)) = 1
    ∧ delivered (issued s (hdc1080_conversion_completed P read_buff s)) =
        [{ humidity := 0, temperature := 0 }]
    ∧ (hdc1080_conversion_completed P read_buff s).awaiting_conversion = false := by
  have hi := issued_append s _ _ (conversion_completed_trace P read_buff s)
  rw [if_neg hfail] at hi
  rw [hi]
  exact ⟨rfl, by simp [completion_read, Event.is_callback, List.countP_cons],
    by simp [completion_read, delivered], rfl⟩

/-- C6, on a run: the completion read of `flaky_chip` times out after two
bytes. -/
theorem completion_read_failure_witness :
    (completion_answer flaky_chip flaky_requested).1 ≠ ESP_OK
    ∧ delivered (issued flaky_requested
        (hdc1080_conversion_completed flaky_chip [0xDE, 0xAD, 0xBE, 0xEF] flaky_requested)) =
        [{ humidity := 0, temperature := 0 }]
    ∧ (hdc1080_conversion_completed flaky_chip [0xDE, 0xAD, 0xBE, 0xEF]
        flaky_requested).awaiting_conversion = false :=
  have key := completion_read_failure flaky_chip [0xDE, 0xAD, 0xBE, 0xEF] flaky_requested
    (by decide)
  ⟨by decide, key.2.2.1, key.2.2.2⟩

theorem decode_bytes (b0 b1 b2 b3 : Nat) (rest : List Nat)
    (h0 : b0 < 256) (h1 : b1 < 256) (h2 : b2 < 256) (h3 : b3 < 256) :
    decode_temperature (b0 :: b1 :: b2 :: b3 :: rest) = temperature_of_raw (256 * b0 + b1)
    ∧ decode_humidity (b0 :: b1 :: b2 :: b3 :: rest) = humidity_of_raw (256 * b2 + b3) := by
  have e0 : byte_at (b0 :: b1 :: b2 :: b3 :: rest) 0 = b0 := by simp [byte_at]; omega
  have e1 : byte_at (b0 :: b1 :: b2 :: b3 :: rest) 1 = b1 := by simp [byte_at]; omega
  have e2 : byte_at (b0 :: b1 :: b2 :: b3 :: rest) 2 = b2 := by simp [byte_at]; omega
  have e3 : byte_at (b0 :: b1 :: b2 :: b3 :: rest) 3 = b3 := by simp [byte_at]; omega
  unfold decode_temperature decode_humidity
  rw [e0, e1, e2, e3, byte_word b0 b1 h1, byte_word b2 b3 h3]
  exact ⟨rfl, rfl⟩

/-- A completion read that returns `ESP_OK` with four bytes: the two calls the
handler puts on the trace, the readings in terms of the two 16-bit words. -/
theorem conversion_completed_ok (P : Platform) (read_buff : List Nat) (s : State)
    (b0 b1 b2 b3 : Nat) (h0 : b0 < 256) (h1 : b1 < 256) (h2 : b2 < 256) (h3 : b3 < 256)
    (hok : completion_answer P s = (ESP_OK, [b0, b1, b2, b3])) :
    issued s (hdc1080_conversion_completed P read_buff s) =
      [completion_read s.hdc1080_set,
        Event.callback s.hdc1080_set.callback
          { temperature := temperature_of_raw (256 * b0 + b1)
            humidity := humidity_of_raw (256 * b2 + b3) }] := by
  have hi := issued_append s _ _ (conversion_completed_trace P read_buff s)
  rw [hok] at hi
  have hst : store_bytes read_buff 4 [b0, b1, b2, b3]
      = b0 :: b1 :: b2 :: b3 :: read_buff.drop 4 := by
    simp [store_bytes]
  obtain ⟨ht, hh⟩ := decode_bytes b0 b1 b2 b3 (read_buff.drop 4) h0 h1 h2 h3
  simp only [if_true, hst, ht, hh] at hi
  exact hi

/-- C7. When the 4-byte read of the completion handler returns `ESP_OK` and
delivers the bytes `b0 b1 b2 b3`, the callback is invoked once, with
temperature `((256*b0 + b1) / 65536) * 165 - 40` and humidity
`((256*b2 + b3) / 65536) * 100`, as rationals: the first two bytes are the
big-endian temperature word, the last two the big-endian humidity word. -/
theorem completion_read_success (P : Platform) (read_buff : List Nat) (s : State)
    (b0 b1 b2 b3 : Nat) (h0 : b0 < 256) (h1 : b1 < 256) (h2 : b2 < 256) (h3 : b3 < 256)
    (hok : completion_answer P s = (ESP_OK, [b0, b1, b2, b3])) :
    issued s (hdc1080_conversion_completed P read_buff s) =
      [completion_read s.hdc1080_set,
        Event.callback s.hdc1080_set.callback
          { temperature := ((256 * (b0 : ℚ) + (b1 : ℚ)) / 65536) * 165 - 40
            humidity := ((256 * (b2 : ℚ) + (b3 : ℚ)) / 65536) * 100 }]
    ∧ delivered (issued s (hdc1080_conversion_completed P read_buff s)) =
        [{ temperature := ((256 * (b0 : ℚ) + (b1 : ℚ)) / 65536) * 165 - 40
           humidity := ((256 * (b2 : ℚ) + (b3 : ℚ)) / 65536) * 100 }] := by
  have hi := conversion_completed_ok P read_buff s b0 b1 b2 b3 h0 h1 h2 h3 hok
  have hr : ({ humidity := humidity_of_raw (256 * b2 + b3),
               temperature := temperature_of_raw (256 * b0 + b1) } : hdc1080_sensor_readings_t)
      = { temperature := ((256 * (b0 : ℚ) + (b1 : ℚ)) / 65536) * 165 - 40
          humidity := ((256 * (b2 : ℚ) + (b3 : ℚ)) / 65536) * 100 } := by
    simp [humidity_of_raw, temperature_of_raw]
  rw [hr] at hi
  rw [hi]
  exact ⟨rfl, by simp [completion_read, delivered]⟩

/-- C7, on the example run: the completion read delivers 61 4D 5C 0F. -/
theorem completion_read_success_witness :
    completion_answer example_chip example_requested = (ESP_OK, [0x61, 0x4D, 0x5C, 0x0F])
    ∧ delivered (issued example_requested
        (hdc1080_conversion_completed example_chip [0, 0, 0, 0] example_requested)) =
        [{ temperature := ((256 * ((0x61 : Nat) : ℚ) + ((0x4D : Nat) : ℚ)) / 65536) * 165 - 40
           humidity := ((256 * ((0x5C : Nat) : ℚ) + ((0x0F : Nat) : ℚ)) / 65536) * 100 }] :=
  ⟨by decide,
    (completion_read_success example_chip [0, 0, 0, 0] example_requested 0x61 0x4D 0x5C 0x0F
      (by decide) (by decide) (by decide) (by decide) (by decide)).2⟩

/-! ## C8: the example reading -/

theorem round_example_temperature :
    round_hundredths (temperature_of_raw (256 * 0x61 + 0x4D)) = 2271 / 100 := by
  have hf : ⌊temperature_of_raw (256 * 0x61 + 0x4D) * 100 + 1 / 2⌋ = 2271 := by
    rw [Int.floor_eq_iff]
    norm_num [temperature_of_raw]
  unfold round_hundredths
  rw [hf]
  norm_num

theorem round_example_humidity :
    round_hundredths (humidity_of_raw (256 * 0x5C + 0x0F)) = 3596 / 100 := by
  have hf : ⌊humidity_of_raw (256 * 0x5C + 0x0F) * 100 + 1 / 2⌋ = 3596 := by
    rw [Int.floor_eq_iff]
    norm_num [humidity_of_raw]
  unfold round_hundredths
  rw [hf]
  norm_num

/-- C8, as amended. When the trigger write succeeds and the completion read that
follows returns the bytes 61 4D 5C 0F, a conversion is under way when the
handler runs, and the callback receives a temperature that rounds to 22.71 and a
humidity that rounds to 35.96 (two decimal places, exact rationals). -/
theorem example_reading_rounded (P : Platform) (read_buff : List Nat) (s : State)
    (h : s.awaiting_conversion = false)
    (htrig : trigger_answer P s = ESP_OK)
    (hread : completion_answer P (hdc1080_request_readings P s).2
      = (ESP_OK, [0x61, 0x4D, 0x5C, 0x0F])) :
    (hdc1080_request_readings P s).2.awaiting_conversion = true
    ∧ List.map (fun r => (round_hundredths r.temperature, round_hundredths r.humidity))
        (delivered (issued (hdc1080_request_readings P s).2
          (hdc1080_conversion_completed P read_buff (hdc1080_request_readings P s).2)))
      = [(2271 / 100, 3596 / 100)] := by
  constructor
  · rw [request_readings_idle P s h]
    simp [htrig]
  · rw [conversion_completed_ok P read_buff _ 0x61 0x4D 0x5C 0x0F (by decide) (by decide)
      (by decide) (by decide) hread]
    simp only [completion_read, delivered, List.map_cons, List.map_nil]
    rw [round_example_temperature, round_example_humidity]

/-- C8, on the example run. -/
theorem example_reading_rounded_witness :
    example_configured.awaiting_conversion = false
    ∧ trigger_answer example_chip example_configured = ESP_OK
    ∧ List.map (fun r => (round_hundredths r.temperature, round_hundredths r.humidity))
        (delivered (issued (hdc1080_request_readings example_chip example_configured).2
          (hdc1080_conversion_completed example_chip [0, 0, 0, 0]
            (hdc1080_request_readings example_chip example_configured).2)))
      = [(2271 / 100, 3596 / 100)] :=
  ⟨by decide, by decide,
    (example_reading_rounded example_chip [0, 0, 0, 0] example_configured (by decide)
      (by decide) (by decide)).2⟩

/-- C8, as the specification states it, fails: on the example run the trigger
write succeeds and the completion read returns 61 4D 5C 0F, and the readings
handed to the callback round to 22.71 and 35.96, not to 21.99 and 35.99. -/
theorem example_reading_not_as_stated :
    trigger_answer example_chip example_configured = ESP_OK
    ∧ completion_answer example_chip example_requested = (ESP_OK, [0x61, 0x4D, 0x5C, 0x0F])
    ∧ delivered (issued example_requested
        (hdc1080_conversion_completed example_chip [0, 0, 0, 0] example_requested))
      = [{ temperature := temperature_of_raw (256 * 0x61 + 0x4D)
           humidity := humidity_of_raw (256 * 0x5C + 0x0F) }]
    ∧ temperature_of_raw (256 * 0x61 + 0x4D) = ((0x614D : ℚ) / 65536) * 165 - 40
    ∧ humidity_of_raw (256 * 0x5C + 0x0F) = ((0x5C0F : ℚ) / 65536) * 100
    ∧ round_hundredths (temperature_of_raw (256 * 0x61 + 0x4D)) ≠ 2199 / 100
    ∧ round_hundredths (humidity_of_raw (256 * 0x5C + 0x0F)) ≠ 3599 / 100 := by
  refine ⟨by decide, by decide, ?_, ?_, ?_, ?_, ?_⟩
  · rw [conversion_completed_ok example_chip [0, 0, 0, 0] example_requested 0x61 0x4D 0x5C 0x0F
      (by decide) (by decide) (by decide) (by decide) (by decide)]
    simp [completion_read, delivered]
  · norm_num [temperature_of_raw]
  · norm_num [humidity_of_raw]
  · rw [round_example_temperature]
    norm_num
  · rw [round_example_humidity]
    norm_num

/-! ## C9: the scaling can be inverted -/

/-- C9. For a 16-bit word `r`, held big-endian in the read buffer: the driver
decodes the temperature `(r/65536)*165 - 40` and the humidity `(r/65536)*100`;
the inverse formulas `(t + 40) * 65536 / 165` and `h * 65536 / 100` give `r`
back exactly; hence both decodings are injective. -/
theorem decode_round_trip (r : Nat) (hr : r < 65536) :
    (∀ b2 b3 rest, b2 < 256 → b3 < 256 →
      decode_temperature (r / 256 :: r % 256 :: b2 :: b3 :: rest)
        = ((r : ℚ) / 65536) * 165 - 40)
    ∧ (∀ b0 b1 rest, b0 < 256 → b1 < 256 →
      decode_humidity (b0 :: b1 :: r / 256 :: r % 256 :: rest) = ((r : ℚ) / 65536) * 100)
    ∧ raw_of_temperature (((r : ℚ) / 65536) * 165 - 40) = r
    ∧ raw_of_humidity (((r : ℚ) / 65536) * 100) = r
    ∧ (∀ r2 : Nat, r2 < 65536 → temperature_of_raw r = temperature_of_raw r2 → r = r2)
    ∧ (∀ r2 : Nat, r2 < 65536 → humidity_of_raw r = humidity_of_raw r2 → r = r2) := by
  have hhi : r / 256 < 256 := by omega
  have hlo : r % 256 < 256 := by omega
  have hw : 256 * (r / 256) + r % 256 = r := by omega
  refine ⟨?_, ?_, ?_, ?_, ?_, ?_⟩
  · intro b2 b3 rest h2 h3
    rw [(decode_bytes (r / 256) (r % 256) b2 b3 rest hhi hlo h2 h3).1, hw]
    rfl
  · intro b0 b1 rest h0 h1
    rw [(decode_bytes b0 b1 (r / 256) (r % 256) rest h0 h1 hhi hlo).2, hw]
    rfl
  · unfold raw_of_temperature
    field_simp
    ring
  · unfold raw_of_humidity
    field_simp
  · intro r2 _ he
    unfold temperature_of_raw at he
    have : (r : ℚ) = (r2 : ℚ) := by linarith
    exact_mod_cast this
  · intro r2 _ he
    unfold humidity_of_raw at he
    have : (r : ℚ) = (r2 : ℚ) := by linarith
    exact_mod_cast this

/-- C9, on the word 0x614D. -/
theorem decode_round_trip_witness :
    0x614D < 65536
    ∧ raw_of_temperature ((((0x614D : Nat) : ℚ) / 65536) * 165 - 40) = ((0x614D : Nat) : ℚ)
    ∧ raw_of_humidity ((((0x614D : Nat) : ℚ) / 65536) * 100) = ((0x614D : Nat) : ℚ) :=
  ⟨by decide, (decode_round_trip 0x614D (by decide)).2.2.1,
    (decode_round_trip 0x614D (by decide)).2.2.2.1⟩

/-- The `float` arithmetic of the two decode expressions is exact: for a 16-bit
word every intermediate value is an integer below 2^24 in absolute value,
divided by 2^16, which a binary32 number holds without rounding. -/
theorem decode_fits_float (raw : Nat) (h : raw < 65536) :
    raw < 2 ^ 24
    ∧ raw * 165 < 2 ^ 24
    ∧ raw * 100 < 2 ^ 24
    ∧ |(raw : ℤ) * 165 - 40 * 65536| < 2 ^ 24
    ∧ (raw : ℚ) / 65536 * 165 = ((raw * 165 : Nat) : ℚ) / 2 ^ 16
    ∧ temperature_of_raw raw = (((raw : ℤ) * 165 - 40 * 65536 : ℤ) : ℚ) / 2 ^ 16
    ∧ humidity_of_raw raw = ((raw * 100 : Nat) : ℚ) / 2 ^ 16 := by
  refine ⟨by omega, by omega, by omega, ?_, ?_, ?_, ?_⟩
  · rw [abs_lt]
    constructor <;> omega
  · push_cast
    ring
  · unfold temperature_of_raw
    push_cast
    ring
  · unfold humidity_of_raw
    push_cast
    ring

/-! ## C10: a request that fails -/

/-- When the bus refuses the trigger write, the request returns the bus error,
the driver stays idle, and the trigger is the only call that left the driver:
no timer is started. -/
theorem request_readings_trigger_failure (P : Platform) (s : State)
    (h : s.awaiting_conversion = false) (hfail : trigger_answer P s ≠ ESP_OK) :
    (hdc1080_request_readings P s).1 = trigger_answer P s
    ∧ (hdc1080_request_readings P s).2.awaiting_conversion = false
    ∧ issued s (hdc1080_request_readings P s).2 =
        [select_transaction s.hdc1080_set HDC1080_TEMPERATURE_REG]
    ∧ List.countP Event.is_timer_call (issued s (hdc1080_request_readings P s).2) = 0 := by
  rw [request_readings_idle P s h, if_pos hfail]
  have hi : issued s
      { s with trace := s.trace ++ [select_transaction s.hdc1080_set HDC1080_TEMPERATURE_REG] }
      = [select_transaction s.hdc1080_set HDC1080_TEMPERATURE_REG] :=
    issued_append s _ _ rfl
  refine ⟨rfl, h, hi, ?_⟩
  simp only [hi]
  simp [select_transaction, Event.is_timer_call, List.countP_cons]

/-- When the bus accepts the trigger write and `esp_timer_start_once` fails, the
request returns the error of the timer, and the busy flag is set all the same:
every later public call is rejected with `HDC1080_CONVERTING`, and no timer is
running that would clear the flag. -/
theorem request_readings_timer_failure (P : Platform) (s : State)
    (h : s.awaiting_conversion = false) (htrig : trigger_answer P s = ESP_OK)
    (hfail : timer_start_answer P s ≠ ESP_OK) :
    (hdc1080_request_readings P s).1 = timer_start_answer P s
    ∧ (hdc1080_request_readings P s).1 ≠ ESP_OK
    ∧ (hdc1080_request_readings P s).2.awaiting_conversion = true
    ∧ ∀ c : Call, c.exec P (hdc1080_request_readings P s).2
        = (HDC1080_CONVERTING, (hdc1080_request_readings P s).2) := by
  have hr := request_readings_idle P s h
  rw [if_neg (not_not.mpr htrig)] at hr
  have hset : (hdc1080_request_readings P s).2.awaiting_conversion = true := by rw [hr]
  refine ⟨by rw [hr], by rw [hr]; exact hfail, hset, fun c => exec_converting P c _ hset⟩

/-- C10, the failing run. `hdc1080_configure` fails on a bus glitch before it
creates the timer; the caller requests readings; the bus accepts the trigger and
`esp_timer_start_once` refuses the null handle.  The request returns
`ESP_ERR_INVALID_ARG`, not `ESP_OK`, and leaves the busy flag set: the three
public functions called afterwards all return `HDC1080_CONVERTING` without
touching the bus. -/
theorem request_readings_timer_failure_locks :
    (hdc1080_configure glitch_chip app_settings app_config State.init).1 = ESP_ERR_TIMEOUT
    ∧ glitch_configured.awaiting_conversion = false
    ∧ glitch_configured.hdc1080_conversion_timer_h = 0
    ∧ trigger_answer glitch_chip glitch_configured = ESP_OK
    ∧ (hdc1080_request_readings glitch_chip glitch_configured).1 = ESP_ERR_INVALID_ARG
    ∧ (hdc1080_request_readings glitch_chip glitch_configured).1 ≠ ESP_OK
    ∧ glitch_requested.awaiting_conversion = true
    ∧ hdc1080_request_readings glitch_chip glitch_requested
        = (HDC1080_CONVERTING, glitch_requested)
    ∧ hdc1080_configure glitch_chip app_settings app_config glitch_requested
        = (HDC1080_CONVERTING, glitch_requested)
    ∧ hdc1080_get_configuration glitch_chip app_config glitch_requested
        = (HDC1080_CONVERTING, app_config, glitch_requested) := by
  have hset : glitch_requested.awaiting_conversion = true := by decide
  exact ⟨by decide, by decide, by decide, by decide, by decide, by decide, hset,
    request_readings_converting _ _ hset, configure_converting _ _ _ _ hset,
    get_configuration_converting _ _ _ hset⟩

/-! ## C11: the configuration is read back -/

theorem read_hdc100_data_set (P : Platform) (s : State) (reg len : Nat) (buff : List Nat) :
    (read_hdc100_data P s reg buff len).2.2.hdc1080_set = s.hdc1080_set := by
  unfold read_hdc100_data
  simp only []
  split <;> rfl

theorem read_hdc100_data_timer (P : Platform) (s : State) (reg len : Nat) (buff : List Nat) :
    (read_hdc100_data P s reg buff len).2.2.hdc1080_conversion_timer_h
      = s.hdc1080_conversion_timer_h := by
  unfold read_hdc100_data
  simp only []
  split <;> rfl

/-- Whatever the bus answers, `read_hdc100_data` only adds to the trace, and
nothing it adds is a register write. -/
theorem read_hdc100_data_issued (P : Platform) (s : State) (reg len : Nat) (buff : List Nat) :
    ∃ es, (read_hdc100_data P s reg buff len).2.2.trace = s.trace ++ es
      ∧ ∀ e ∈ es, ∀ r, e.writes_register r = false := by
  unfold read_hdc100_data
  simp only []
  split
  · exact ⟨[select_transaction s.hdc1080_set reg], rfl,
      by simp [select_transaction, select_cmds, Event.writes_register]⟩
  · exact ⟨[select_transaction s.hdc1080_set reg, read_transaction s.hdc1080_set len],
      by simp [select_transaction, read_transaction, select_cmds, read_cmds],
      by simp [select_transaction, read_transaction, select_cmds, read_cmds,
        Event.writes_register]⟩

/-- Whatever the bus answers, the only register write `hdc1080_configure` can
put on the bus is the one of lines 112-114: to the configuration register, with
the requested byte followed by 0x00 as payload. -/
theorem configure_issued (P : Platform) (hdc1080_settings : hdc1080_settings_t)
    (hdc_cfg : hdc1080_config_t) (s : State) :
    ∃ es, (hdc1080_configure P hdc1080_settings hdc_cfg s).2.trace = s.trace ++ es
      ∧ ∀ e ∈ es, (∀ r, e.writes_register r = false)
          ∨ e = write_transaction hdc1080_settings HDC1080_CONFIG_REG
              [hdc_cfg.config_register % 256, 0] := by
  obtain ⟨es1, h1, m1⟩ := read_hdc100_data_issued P { s with hdc1080_set := hdc1080_settings }
    HDC1080_MANUFACTURER_ID_REG 2 [0, 0]
  have k1 := read_hdc100_data_set P { s with hdc1080_set := hdc1080_settings }
    HDC1080_MANUFACTURER_ID_REG 2 [0, 0]
  unfold hdc1080_configure
  simp only [check_hdc1080_error_eq]
  generalize read_hdc100_data P { s with hdc1080_set := hdc1080_settings }
    HDC1080_MANUFACTURER_ID_REG [0, 0] 2 = r1 at h1 k1 ⊢
  obtain ⟨es2, h2, m2⟩ := read_hdc100_data_issued P r1.2.2 HDC1080_DEVICE_ID_REG 2 r1.2.1
  have k2 := read_hdc100_data_set P r1.2.2 HDC1080_DEVICE_ID_REG 2 r1.2.1
  generalize read_hdc100_data P r1.2.2 HDC1080_DEVICE_ID_REG r1.2.1 2 = r2 at h2 k2 ⊢
  obtain ⟨es3, h3, m3⟩ := read_hdc100_data_issued P r2.2.2 HDC1080_CONFIG_REG 2 r2.2.1
  have k3 := read_hdc100_data_set P r2.2.2 HDC1080_CONFIG_REG 2 r2.2.1
  generalize read_hdc100_data P r2.2.2 HDC1080_CONFIG_REG r2.2.1 2 = r3 at h3 k3 ⊢
  have hset : r3.2.2.hdc1080_set = hdc1080_settings := by rw [k3, k2, k1]
  have t1 : r1.2.2.trace = s.trace ++ es1 := h1
  have t2 : r2.2.2.trace = s.trace ++ (es1 ++ es2) := by rw [h2, t1, List.append_assoc]
  have t3 : r3.2.2.trace = s.trace ++ (es1 ++ es2 ++ es3) := by
    rw [h3, t2, List.append_assoc, List.append_assoc]
  have n1 : ∀ e ∈ es1, (∀ r, e.writes_register r = false)
      ∨ e = write_transaction hdc1080_settings HDC1080_CONFIG_REG
          [hdc_cfg.config_register % 256, 0] := fun e he => Or.inl (m1 e he)
  have n2 : ∀ e ∈ es1 ++ es2, (∀ r, e.writes_register r = false)
      ∨ e = write_transaction hdc1080_settings HDC1080_CONFIG_REG
          [hdc_cfg.config_register % 256, 0] := by
    intro e he
    rcases List.mem_append.mp he with he | he
    · exact Or.inl (m1 e he)
    · exact Or.inl (m2 e he)
  have n3 : ∀ e ∈ es1 ++ es2 ++ es3, (∀ r, e.writes_register r = false)
      ∨ e = write_transaction hdc1080_settings HDC1080_CONFIG_REG
          [hdc_cfg.config_register % 256, 0] := by
    intro e he
    rcases List.mem_append.mp he with he | he
    · exact n2 e he
    · exact Or.inl (m3 e he)
  repeat' split
  · exact ⟨[], by simp, by simp⟩
  · exact ⟨es1, t1, n1⟩
  · exact ⟨es1, t1, n1⟩
  · exact ⟨es1 ++ es2, t2, n2⟩
  · exact ⟨es1 ++ es2, t2, n2⟩
  · exact ⟨es1 ++ es2 ++ es3, t3, n3⟩
  · refine ⟨es1 ++ es2 ++ es3 ++ [write_transaction hdc1080_settings HDC1080_CONFIG_REG
      [hdc_cfg.config_register % 256, 0]], ?_, ?_⟩
    · rw [write_hdc100_data_state, hset]
      simp [t3]
    · intro e he
      rcases List.mem_append.mp he with he | he
      · exact n3 e he
      · exact Or.inr (List.mem_singleton.mp he)
  · refine ⟨es1 ++ es2 ++ es3 ++ [write_transaction hdc1080_settings HDC1080_CONFIG_REG
      [hdc_cfg.config_register % 256, 0], Event.esp_timer_create], ?_, ?_⟩
    · rw [write_hdc100_data_state, hset]
      simp [hdc1080_configure_timer, t3]
    · intro e he
      rcases List.mem_append.mp he with he | he
      · exact n3 e he
      · simp only [List.mem_cons, List.mem_singleton, List.not_mem_nil, or_false] at he
        rcases he with rfl | rfl
        · exact Or.inr rfl
        · exact Or.inl (by simp [Event.writes_register])
  · refine ⟨es1 ++ es2 ++ es3 ++ [Event.esp_timer_create], ?_, ?_⟩
    · simp [hdc1080_configure_timer, t3]
    · intro e he
      rcases List.mem_append.mp he with he | he
      · exact n3 e he
      · rw [List.mem_singleton.mp he]
        exact Or.inl (by simp [Event.writes_register])

/-- C11. Let `payload` be the bytes that a run of `hdc1080_configure` for the
configuration byte `c` wrote to the configuration register.  When
`hdc1080_get_configuration` is called while idle and its register read succeeds
and returns those bytes, it returns `ESP_OK` and the output configuration byte is
`c`.  The payload is `c` followed by 0x00; the getter puts only the two
transactions of its read on the bus, no write transaction, and leaves the busy
flag, the stored settings and the timer handle as they were. -/
theorem get_configuration_reads_back (P : Platform) (hdc1080_settings : hdc1080_settings_t)
    (hdc_cfg out : hdc1080_config_t) (s t t1 : State) (payload : List Nat)
    (hc : hdc_cfg.config_register < 256)
    (hwrote : payload ∈ List.map Event.write_payload
      (List.filter (Event.writes_register HDC1080_CONFIG_REG)
        (issued s (hdc1080_configure P hdc1080_settings hdc_cfg s).2)))
    (hidle : t.awaiting_conversion = false)
    (hread : read_hdc100_data P t HDC1080_CONFIG_REG [0, 0] 2 = (ESP_OK, payload, t1)) :
    hdc1080_get_configuration P out t
      = (ESP_OK, { config_register := hdc_cfg.config_register }, t1)
    ∧ payload = [hdc_cfg.config_register, 0x00]
    ∧ issued t (hdc1080_get_configuration P out t).2.2 =
        [select_transaction t.hdc1080_set HDC1080_CONFIG_REG, read_transaction t.hdc1080_set 2]
    ∧ (∀ reg, List.countP (Event.writes_register reg)
        (issued t (hdc1080_get_configuration P out t).2.2) = 0)
    ∧ (hdc1080_get_configuration P out t).2.2.awaiting_conversion = t.awaiting_conversion
    ∧ (hdc1080_get_configuration P out t).2.2.hdc1080_set = t.hdc1080_set
    ∧ (hdc1080_get_configuration P out t).2.2.hdc1080_conversion_timer_h
        = t.hdc1080_conversion_timer_h := by
  have hpay : payload = [hdc_cfg.config_register, 0x00] := by
    obtain ⟨es, htr, hes⟩ := configure_issued P hdc1080_settings hdc_cfg s
    rw [issued_append s _ es htr] at hwrote
    obtain ⟨e, he, rfl⟩ := List.mem_map.mp hwrote
    obtain ⟨hmem, hw⟩ := List.mem_filter.mp he
    rcases hes e hmem with hno | rfl
    · rw [hno HDC1080_CONFIG_REG] at hw
      exact absurd hw (by decide)
    · simp [write_transaction, Event.write_payload, Nat.mod_eq_of_lt hc]
  have hget : hdc1080_get_configuration P out t
      = (ESP_OK, { config_register := hdc_cfg.config_register }, t1) := by
    rw [hpay] at hread
    simp [hdc1080_get_configuration, hidle, hread, byte_at, ESP_OK, Nat.mod_eq_of_lt hc]
  have hs1 := read_hdc100_data_ok P t t1 _ _ _ _ hread
  have hi : issued t t1 =
      [select_transaction t.hdc1080_set HDC1080_CONFIG_REG, read_transaction t.hdc1080_set 2] :=
    issued_append t t1 _ (by rw [hs1])
  rw [hget]
  refine ⟨rfl, hpay, hi, ?_, by rw [hs1], by rw [hs1], by rw [hs1]⟩
  intro reg
  rw [hi]
  simp [select_transaction, read_transaction, select_cmds, read_cmds, Event.writes_register,
    List.countP_cons]

/-- C11, on a run: the example application configures the chip, which then
returns the bytes it was given. -/
theorem get_configuration_reads_back_witness :
    app_config.config_register < 256
    ∧ readback_configured.awaiting_conversion = false
    ∧ (hdc1080_get_configuration readback_chip { config_register := 0 } readback_configured).1
        = ESP_OK
    ∧ (hdc1080_get_configuration readback_chip { config_register := 0 }
        readback_configured).2.1 = app_config :=
  have key := get_configuration_reads_back readback_chip app_settings app_config
    { config_register := 0 } State.init readback_configured
    (read_hdc100_data readback_chip readback_configured HDC1080_CONFIG_REG [0, 0] 2).2.2
    [0x10, 0x00] (by decide) (by decide) (by decide) (by decide)
  ⟨by decide, by decide, congrArg Prod.fst key.1, congrArg (fun x => x.2.1) key.1⟩

/-! ## C12: a successful read never yields the failure sentinel -/

theorem byte_at_lt (buff : List Nat) (i : Nat) : byte_at buff i < 256 :=
  Nat.mod_lt _ (by decide)

/-- The 16-bit word the handler builds from two places of the read buffer. -/
theorem buffer_word_lt (buff : List Nat) (i j : Nat) :
    (byte_at buff i <<< 8) ||| byte_at buff j < 65536 := by
  have hi := byte_at_lt buff i
  have hj := byte_at_lt buff j
  rw [byte_word _ _ hj]
  omega

/-- The temperature scaling never gives 0 on a 16-bit word, and stays in
[-40, 125). -/
theorem temperature_of_raw_range (raw : Nat) (h : raw < 65536) :
    165 * raw ≠ 40 * 65536
    ∧ temperature_of_raw raw ≠ 0
    ∧ -40 ≤ temperature_of_raw raw
    ∧ temperature_of_raw raw < 125 := by
  have hq : (raw : ℚ) < 65536 := by exact_mod_cast h
  have h0 : (0 : ℚ) ≤ (raw : ℚ) := Nat.cast_nonneg raw
  have hne : 165 * raw ≠ 40 * 65536 := by omega
  refine ⟨hne, ?_, ?_, ?_⟩
  · intro hz
    unfold temperature_of_raw at hz
    have hq2 : (165 : ℚ) * (raw : ℚ) = 40 * 65536 := by linarith
    exact hne (by exact_mod_cast hq2)
  · unfold temperature_of_raw
    linarith
  · unfold temperature_of_raw
    linarith

/-- The humidity scaling stays in [0, 100) on a 16-bit word. -/
theorem humidity_of_raw_range (raw : Nat) (h : raw < 65536) :
    0 ≤ humidity_of_raw raw ∧ humidity_of_raw raw < 100 := by
  have hq : (raw : ℚ) < 65536 := by exact_mod_cast h
  have h0 : (0 : ℚ) ≤ (raw : ℚ) := Nat.cast_nonneg raw
  unfold humidity_of_raw
  constructor <;> linarith

/-- C12. Whatever the read buffer holds after a completion read, the decoded
temperature is never 0 (no 16-bit `r` has `165 * r = 40 * 65536`) and lies in
[-40, 125), and the decoded humidity lies in [0, 100).  Hence the reading the
completion handler hands to the callback is the pair temperature 0, humidity 0
exactly when its bus read did not return `ESP_OK`. -/
theorem sentinel_iff_read_failed (P : Platform) (read_buff : List Nat) (s : State) :
    (∀ r : Nat, r < 65536 → 165 * r ≠ 40 * 65536)
    ∧ (∀ buff : List Nat,
        decode_temperature buff ≠ 0
        ∧ -40 ≤ decode_temperature buff ∧ decode_temperature buff < 125
        ∧ 0 ≤ decode_humidity buff ∧ decode_humidity buff < 100)
    ∧ (∀ b0 b1 b2 b3 : Nat, b0 < 256 → b1 < 256 → b2 < 256 → b3 < 256 →
        ((256 * (b0 : ℚ) + (b1 : ℚ)) / 65536) * 165 - 40 ≠ 0
        ∧ -40 ≤ ((256 * (b0 : ℚ) + (b1 : ℚ)) / 65536) * 165 - 40
        ∧ ((256 * (b0 : ℚ) + (b1 : ℚ)) / 65536) * 165 - 40 < 125
        ∧ 0 ≤ ((256 * (b2 : ℚ) + (b3 : ℚ)) / 65536) * 100
        ∧ ((256 * (b2 : ℚ) + (b3 : ℚ)) / 65536) * 100 < 100)
    ∧ ((completion_answer P s).1 = ESP_OK →
        ∃ r, delivered (issued s (hdc1080_conversion_completed P read_buff s)) = [r]
          ∧ r.temperature ≠ 0
          ∧ -40 ≤ r.temperature ∧ r.temperature < 125
          ∧ 0 ≤ r.humidity ∧ r.humidity < 100)
    ∧ (delivered (issued s (hdc1080_conversion_completed P read_buff s))
          = [{ humidity := 0, temperature := 0 }]
        ↔ (completion_answer P s).1 ≠ ESP_OK) := by
  have hbuf : ∀ buff : List Nat,
      decode_temperature buff ≠ 0
      ∧ -40 ≤ decode_temperature buff ∧ decode_temperature buff < 125
      ∧ 0 ≤ decode_humidity buff ∧ decode_humidity buff < 100 := by
    intro buff
    obtain ⟨-, t0, t1, t2⟩ := temperature_of_raw_range _ (buffer_word_lt buff 0 1)
    obtain ⟨u1, u2⟩ := humidity_of_raw_range _ (buffer_word_lt buff 2 3)
    exact ⟨t0, t1, t2, u1, u2⟩
  have hi := issued_append s _ _ (conversion_completed_trace P read_buff s)
  refine ⟨fun r hr => (temperature_of_raw_range r hr).1, hbuf, ?_, ?_, ?_⟩
  · intro b0 b1 b2 b3 h0 h1 h2 h3
    obtain ⟨-, t0, t1, t2⟩ := temperature_of_raw_range (256 * b0 + b1) (by omega)
    obtain ⟨u1, u2⟩ := humidity_of_raw_range (256 * b2 + b3) (by omega)
    simp only [temperature_of_raw, humidity_of_raw, Nat.cast_add, Nat.cast_mul,
      Nat.cast_ofNat] at t0 t1 t2 u1 u2
    exact ⟨t0, t1, t2, u1, u2⟩
  · intro hok
    rw [hi, if_pos hok]
    exact ⟨{ humidity := decode_humidity (store_bytes read_buff 4 (completion_answer P s).2),
             temperature :=
               decode_temperature (store_bytes read_buff 4 (completion_answer P s).2) },
      by simp [completion_read, delivered], hbuf _⟩
  · rw [hi]
    constructor
    · intro hd hok
      rw [if_pos hok] at hd
      simp only [completion_read, delivered, List.cons.injEq, and_true] at hd
      exact (hbuf _).1 (congrArg hdc1080_sensor_readings_t.temperature hd)
    · intro hfail
      rw [if_neg hfail]
      simp [completion_read, delivered]

/-- C12, on the two example runs: the read of `example_chip` succeeds and the
temperature handed over is not 0; the read of `flaky_chip` fails and the pair
handed over is the sentinel. -/
theorem sentinel_iff_read_failed_witness :
    (completion_answer example_chip example_requested).1 = ESP_OK
    ∧ (∃ r, delivered (issued example_requested
          (hdc1080_conversion_completed example_chip [0, 0, 0, 0] example_requested)) = [r]
        ∧ r.temperature ≠ 0
        ∧ -40 ≤ r.temperature ∧ r.temperature < 125
        ∧ 0 ≤ r.humidity ∧ r.humidity < 100)
    ∧ (completion_answer flaky_chip flaky_requested).1 ≠ ESP_OK
    ∧ delivered (issued flaky_requested
        (hdc1080_conversion_completed flaky_chip [0xDE, 0xAD, 0xBE, 0xEF] flaky_requested))
      = [{ humidity := 0, temperature := 0 }] :=
  ⟨by decide,
    (sentinel_iff_read_failed example_chip [0, 0, 0, 0] example_requested).2.2.2.1 (by decide),
    by decide,
    (sentinel_iff_read_failed flaky_chip [0xDE, 0xAD, 0xBE, 0xEF] flaky_requested).2.2.2.2.mpr
      (by decide)⟩

end HDC1080
